import Mathlib

/-!
# College Companion backend: fallback orchestration and response normalisation

A shallow embedding of `backend/utils/geminiClient.js`, `backend/services/pplxService.js`,
`backend/services/groqSurvivalPlan.js`, `backend/routes/essentialsRoutes.js` and
`backend/routes/survivalPlan.js`.

Conventions of the embedding.

* A JavaScript string is a Lean `String`; one `Char` stands for one UTF-16 code unit, which is
  exact for text of the Basic Multilingual Plane.
* A thrown `Error` is represented by its `message`; an `async` function that may throw returns
  an `Except String _`.
* A JavaScript number is a rational (`ℚ`); `NaN`, the infinities and the rounding of doubles are
  not represented.
* `undefined` is `Option.none`.
* Logging (`console.log`, `console.warn`, `console.error`) has no effect on results and is
  left out.
-/

namespace CollegeCompanion

/-! ## JavaScript values -/

/-- A JavaScript value of the kind that `JSON.parse` can produce. An object is the list of its
own properties in insertion order, each key occurring once. -/
inductive Json where
  | null : Json
  | bool (b : Bool) : Json
  | num (q : ℚ) : Json
  | str (s : String) : Json
  | arr (items : List Json) : Json
  | obj (props : List (String × Json)) : Json

namespace Json

/-- The empty array literal. -/
def emptyArr : Json := Json.arr []

/-- Truthiness test of JavaScript (`ToBoolean`) for a defined value. -/
def truthy : Json → Bool
  | Json.null => false
  | Json.bool b => b
  | Json.num q => decide (q ≠ 0)
  | Json.str s => decide (s ≠ "")
  | Json.arr _ => true
  | Json.obj _ => true

/-- Property lookup in a property list. -/
def lookup (key : String) : List (String × Json) → Option Json
  | [] => none
  | (k, v) :: rest => if k = key then some v else lookup key rest

/-- Property read `value.key` on a non-null value: `undefined` unless the value is an object
that owns the key. -/
def get? (v : Json) (key : String) : Option Json :=
  match v with
  | Json.obj props => lookup key props
  | _ => none

/-- Definition of a property on a property list, as `CreateDataProperty` does: an existing key
keeps its place and takes the new value, a new key goes last. -/
def setProp (key : String) (v : Json) : List (String × Json) → List (String × Json)
  | [] => [(key, v)]
  | (k, w) :: rest => if k = key then (k, v) :: rest else (k, w) :: setProp key v rest

end Json

/-- Truthiness of a possibly `undefined` value. -/
def truthy? : Option Json → Bool
  | none => false
  | some v => v.truthy

/-- The expression `x || d` of JavaScript on a possibly `undefined` left operand. -/
def orElse (x : Option Json) (d : Json) : Json :=
  match x with
  | none => d
  | some v => if v.truthy then v else d

/-! ## `JSON.parse` -/

namespace JSON

/-- White space of the JSON grammar: space, tab, line feed, carriage return. -/
def isWs (c : Char) : Bool :=
  c = ' ' || c = '\t' || c = '\n' || c = '\r'

/-- Skip JSON white space. -/
def skipWs : List Char → List Char
  | [] => []
  | c :: cs => if isWs c then skipWs cs else c :: cs

/-- Decimal digit test. -/
def isDigit (c : Char) : Bool :=
  decide (48 ≤ c.toNat) && decide (c.toNat ≤ 57)

/-- Value of a hexadecimal digit. -/
def hexVal (c : Char) : Option Nat :=
  let n := c.toNat
  if 48 ≤ n ∧ n ≤ 57 then some (n - 48)
  else if 97 ≤ n ∧ n ≤ 102 then some (n - 87)
  else if 65 ≤ n ∧ n ≤ 70 then some (n - 55)
  else none

/-- Read a maximal run of decimal digits: its value so far, the number of digits read, and the
rest of the input. -/
def readDigits : List Char → Nat → Nat → Nat × Nat × List Char
  | [], acc, n => (acc, n, [])
  | c :: cs, acc, n =>
    if isDigit c then readDigits cs (acc * 10 + (c.toNat - 48)) (n + 1) else (acc, n, c :: cs)

/-- The rational denoted by a decimal literal: `mantissa * 10 ^ (exp - fracLen)`, negated when
`neg`. -/
def mkNumber (neg : Bool) (mantissa : Nat) (fracLen : Nat) (expNeg : Bool) (exp : Nat) : ℚ :=
  let m : Int := if neg then -(mantissa : Int) else (mantissa : Int)
  let up : Nat := if expNeg then 0 else exp
  let down : Nat := if expNeg then fracLen + exp else fracLen
  mkRat (m * (10 ^ up : Nat)) (10 ^ down)

/-- The exponent part of a number, if there is one: sign, value and rest. -/
def parseExponent (cs : List Char) : Option (Bool × Nat × List Char) :=
  match cs with
  | c :: rest =>
    if c = 'e' ∨ c = 'E' then
      let (expNeg, rest1) :=
        match rest with
        | '-' :: r => (true, r)
        | '+' :: r => (false, r)
        | r => (false, r)
      match readDigits rest1 0 0 with
      | (_, 0, _) => none
      | (e, _, rest2) => some (expNeg, e, rest2)
    else some (false, 0, cs)
  | [] => some (false, 0, [])

/-- The fraction part of a number, if there is one: digits value, digit count and rest. -/
def parseFraction (cs : List Char) : Option (Nat × Nat × List Char) :=
  match cs with
  | '.' :: rest =>
    match readDigits rest 0 0 with
    | (_, 0, _) => none
    | (f, n, rest1) => some (f, n, rest1)
  | _ => some (0, 0, cs)

/-- A JSON number: `-? (0 | [1-9][0-9]*) (. [0-9]+)? ([eE] [+-]? [0-9]+)?`. -/
def parseNumber (cs : List Char) : Option (ℚ × List Char) :=
  let (neg, cs1) :=
    match cs with
    | '-' :: r => (true, r)
    | r => (false, r)
  let intPart : Option (Nat × List Char) :=
    match cs1 with
    | '0' :: r => some (0, r)
    | c :: _ =>
      if isDigit c then
        match readDigits cs1 0 0 with
        | (i, _, r) => some (i, r)
      else none
    | [] => none
  match intPart with
  | none => none
  | some (i, cs2) =>
    match parseFraction cs2 with
    | none => none
    | some (f, fl, cs3) =>
      match parseExponent cs3 with
      | none => none
      | some (expNeg, e, cs4) => some (mkNumber neg (i * 10 ^ fl + f) fl expNeg e, cs4)

/-- The body of a JSON string after the opening quote, up to and including the closing quote.
A `\u` escape of a surrogate half, which a `Char` cannot hold, reads as U+FFFD. -/
def parseStringBody : List Char → List Char → Option (String × List Char)
  | [], _ => none
  | '"' :: rest, acc => some (String.mk acc.reverse, rest)
  | '\\' :: 'u' :: a :: b :: c :: d :: rest, acc =>
    match hexVal a, hexVal b, hexVal c, hexVal d with
    | some x, some y, some z, some w =>
      let n := ((x * 16 + y) * 16 + z) * 16 + w
      let ch := if 55296 ≤ n ∧ n ≤ 57343 then Char.ofNat 65533 else Char.ofNat n
      parseStringBody rest (ch :: acc)
    | _, _, _, _ => none
  | '\\' :: e :: rest, acc =>
    if e = '"' then parseStringBody rest ('"' :: acc)
    else if e = '\\' then parseStringBody rest ('\\' :: acc)
    else if e = '/' then parseStringBody rest ('/' :: acc)
    else if e = 'b' then parseStringBody rest (Char.ofNat 8 :: acc)
    else if e = 'f' then parseStringBody rest (Char.ofNat 12 :: acc)
    else if e = 'n' then parseStringBody rest ('\n' :: acc)
    else if e = 'r' then parseStringBody rest ('\r' :: acc)
    else if e = 't' then parseStringBody rest ('\t' :: acc)
    else none
  | c :: rest, acc =>
    if c.toNat < 32 ∨ c = '\\' then none else parseStringBody rest (c :: acc)

mutual

/-- One JSON value, after optional white space; the fuel bounds the nesting and length. -/
def parseValue : Nat → List Char → Option (Json × List Char)
  | 0, _ => none
  | fuel + 1, cs =>
    match skipWs cs with
    | '\x7b' :: rest =>
      match skipWs rest with
      | '\x7d' :: rest1 => some (Json.obj [], rest1)
      | rest1 => parseMembers fuel rest1 []
    | '[' :: rest =>
      match skipWs rest with
      | ']' :: rest1 => some (Json.arr [], rest1)
      | rest1 => parseElements fuel rest1 []
    | '"' :: rest =>
      match parseStringBody rest [] with
      | some (s, rest1) => some (Json.str s, rest1)
      | none => none
    | 't' :: 'r' :: 'u' :: 'e' :: rest => some (Json.bool true, rest)
    | 'f' :: 'a' :: 'l' :: 's' :: 'e' :: rest => some (Json.bool false, rest)
    | 'n' :: 'u' :: 'l' :: 'l' :: rest => some (Json.null, rest)
    | rest =>
      match parseNumber rest with
      | some (q, rest1) => some (Json.num q, rest1)
      | none => none

/-- The elements of an array after `[`, with the elements read so far. -/
def parseElements : Nat → List Char → List Json → Option (Json × List Char)
  | 0, _, _ => none
  | fuel + 1, cs, acc =>
    match parseValue fuel cs with
    | none => none
    | some (v, rest) =>
      match skipWs rest with
      | ',' :: rest1 => parseElements fuel rest1 (acc ++ [v])
      | ']' :: rest1 => some (Json.arr (acc ++ [v]), rest1)
      | _ => none

/-- The members of an object after the opening brace, with the properties read so far. -/
def parseMembers : Nat → List Char → List (String × Json) → Option (Json × List Char)
  | 0, _, _ => none
  | fuel + 1, cs, acc =>
    match skipWs cs with
    | '"' :: rest =>
      match parseStringBody rest [] with
      | none => none
      | some (k, rest1) =>
        match skipWs rest1 with
        | ':' :: rest2 =>
          match parseValue fuel rest2 with
          | none => none
          | some (v, rest3) =>
            match skipWs rest3 with
            | ',' :: rest4 => parseMembers fuel rest4 (Json.setProp k v acc)
            | '\x7d' :: rest4 => some (Json.obj (Json.setProp k v acc), rest4)
            | _ => none
        | _ => none
    | _ => none

end

/-- The builtin `JSON.parse(text)`: the value the text denotes, or `none` where the builtin
throws a `SyntaxError`. The fuel is twice the length of the text and two: a step of descent
that consumes no character is followed by one that consumes at least one. -/
def parse (text : String) : Option Json :=
  match parseValue (2 * text.data.length + 2) text.data with
  | some (v, rest) =>
    match skipWs rest with
    | [] => some v
    | _ => none
  | none => none

end JSON

/-! ## Messages, options and provider clients (`backend/utils/geminiClient.js`) -/

/-- A conversation message `{role, content}`. -/
structure Message where
  role : String
  content : String
  deriving DecidableEq, Repr

/-- A part `{text}` of a Gemini turn. -/
structure Part where
  text : String
  deriving DecidableEq, Repr

/-- A Gemini turn `{role, parts}`. -/
structure Content where
  role : String
  parts : List Part
  deriving DecidableEq, Repr

/-- The `options` argument: each field is a number or absent. -/
structure Options where
  temperature : Option ℚ
  max_tokens : Option ℚ
  deriving DecidableEq

/-- The argument of `groqClient.chat.completions.create`. -/
structure GroqRequest where
  model : String
  messages : List Message
  temperature : ℚ
  max_tokens : ℚ
  deriving DecidableEq

/-- The expression `x || d` on a number field that may be absent: `d` when `x` is `undefined`
or `0`, else `x`. -/
def numOr (x : Option ℚ) (d : ℚ) : ℚ :=
  match x with
  | none => d
  | some v => if v = 0 then d else v

/-- The Gemini text model handle. `generateContent prompt` stands for
`(await geminiText.generateContent(prompt)).response.text()`, and `sendMessage history text` for
`startChat` on that history followed by `sendMessage(text)` and `response.text()`; each returns
the text or the message of the error thrown. -/
structure GeminiModel where
  generateContent : String → Except String String
  sendMessage : List Content → String → Except String String

/-- The process-wide provider handles. `geminiText` is `none` while the module variable is
`null` (the client was never initialised). `groq request` stands for
`(await getGroqClient().chat.completions.create(request)).choices[0].message.content`, the
secondary provider (module `groqService.js`) taken as one call that returns text or fails. -/
structure Env where
  geminiText : Option GeminiModel
  groq : GroqRequest → Except String String

/-- A provider call that was issued. -/
inductive Call where
  | generateContent (prompt : String) : Call
  | sendMessage (history : List Content) (text : String) : Call
  | groqCreate (request : GroqRequest) : Call
  deriving DecidableEq

/-- The outcome of an `async` function together with the provider calls it issued, in order. -/
abbrev Run (α : Type) := Except String α × List Call

/-- The requests of the Groq calls of a log, in order. -/
def groqRequests : List Call → List GroqRequest
  | [] => []
  | Call.groqCreate r :: rest => r :: groqRequests rest
  | _ :: rest => groqRequests rest

/-- The number of Gemini calls of a log. -/
def geminiCalls : List Call → Nat
  | [] => 0
  | Call.groqCreate _ :: rest => geminiCalls rest
  | _ :: rest => geminiCalls rest + 1

/-- The `try` block of `generateAIResponse` (lines 55-67). -/
def geminiGenerate (env : Env) (prompt : String) : Run String :=
  match env.geminiText with
  | none => (Except.error "Gemini not available", [])
  | some g => (g.generateContent prompt, [Call.generateContent prompt])

/-- The request object built in the `catch` block of `generateAIResponse` (lines 73-78). -/
def singleRequest (prompt : String) (options : Options) : GroqRequest :=
  { model := "llama-3.1-70b-versatile"
    messages := [{ role := "user", content := prompt }]
    temperature := numOr options.temperature 0.2
    max_tokens := numOr options.max_tokens 4096 }

/-- The `catch (geminiError)` block shared in shape by both orchestrator functions: one Groq
call, whose failure is rethrown as a new `Error`. -/
def groqFallback (env : Env) (request : GroqRequest) (log : List Call) : Run String :=
  match env.groq request with
  | Except.ok content => (Except.ok content, log ++ [Call.groqCreate request])
  | Except.error message =>
    (Except.error ("AI generation failed: " ++ message), log ++ [Call.groqCreate request])

/-- The function `generateAIResponse(prompt, options)`. -/
def generateAIResponse (env : Env) (prompt : String) (options : Options) : Run String :=
  match geminiGenerate env prompt with
  | (Except.ok text, log) => (Except.ok text, log)
  | (Except.error _, log) => groqFallback env (singleRequest prompt options) log

/-- The callback of `messages.map` in `generateAIResponseWithHistory` (lines 101-109). -/
def formatMessage (msg : Message) : Content :=
  if msg.role = "system" then
    { role := "user", parts := [{ text := "[System]: " ++ msg.content }] }
  else
    { role := if msg.role = "assistant" then "model" else "user"
      parts := [{ text := msg.content }] }

/-- The `try` block of `generateAIResponseWithHistory` (lines 93-121). On an empty array
`messages[messages.length - 1]` is `undefined` and reading its `content` throws. -/
def geminiChat (env : Env) (messages : List Message) : Run String :=
  match env.geminiText with
  | none => (Except.error "Gemini not available", [])
  | some g =>
    let formattedMessages := messages.map formatMessage
    let history := formattedMessages.dropLast
    match messages.getLast? with
    | none => (Except.error "Cannot read properties of undefined (reading 'content')", [])
    | some lastMessage =>
      (g.sendMessage history lastMessage.content, [Call.sendMessage history lastMessage.content])

/-- The request object built in the `catch` block of `generateAIResponseWithHistory`
(lines 127-132). -/
def historyRequest (messages : List Message) (options : Options) : GroqRequest :=
  { model := "llama-3.1-70b-versatile"
    messages := messages
    temperature := numOr options.temperature 0.2
    max_tokens := numOr options.max_tokens 4096 }

/-- The function `generateAIResponseWithHistory(messages, options)`. -/
def generateAIResponseWithHistory (env : Env) (messages : List Message) (options : Options) :
    Run String :=
  match geminiChat env messages with
  | (Except.ok text, log) => (Except.ok text, log)
  | (Except.error _, log) => groqFallback env (historyRequest messages options) log

/-! ## String builtins of JavaScript -/

namespace JS

/-- White space and line terminators, the characters that `String.prototype.trim` removes. -/
def isTrimChar (c : Char) : Bool :=
  let n := c.toNat
  decide (9 ≤ n ∧ n ≤ 13) || decide (n = 32) || decide (n = 160) || decide (n = 5760) ||
    decide (8192 ≤ n ∧ n ≤ 8202) || decide (n = 8232) || decide (n = 8233) ||
    decide (n = 8239) || decide (n = 8287) || decide (n = 12288) || decide (n = 65279)

/-- Removal of the leading trim characters of a character list. -/
def trimStart : List Char → List Char
  | [] => []
  | c :: cs => if isTrimChar c then trimStart cs else c :: cs

/-- The method `s.trim()`. -/
def trim (s : String) : String :=
  String.mk (trimStart (trimStart s.data).reverse).reverse

/-- The method `s.startsWith(p)`. -/
def startsWith (s p : String) : Bool :=
  p.data.isPrefixOf s.data

/-- The method `s.endsWith(p)`. -/
def endsWith (s p : String) : Bool :=
  p.data.reverse.isPrefixOf s.data.reverse

/-- The call `s.replace(/^p/, '')` for a literal text `p`: the text is removed when `s` starts
with it. -/
def removeLeading (s p : String) : String :=
  if startsWith s p then String.mk (s.data.drop p.data.length) else s

/-- The call `s.replace(/p$/, '')` for a literal text `p`: the text is removed when `s` ends
with it (without the `m` flag, `$` is the end of the input only). -/
def removeTrailing (s p : String) : String :=
  if endsWith s p then String.mk (s.data.take (s.data.length - p.data.length)) else s

/-- The call `s.substring(0, n)`. -/
def substring0 (s : String) (n : Nat) : String :=
  String.mk (s.data.take n)

/-- The list from its first opening brace on, empty when it has none. -/
def fromFirstBrace : List Char → List Char
  | [] => []
  | c :: cs => if c = '\x7b' then c :: cs else fromFirstBrace cs

/-- The reversed list from its first closing brace on, empty when it has none. -/
def fromFirstClose : List Char → List Char
  | [] => []
  | c :: cs => if c = '\x7d' then c :: cs else fromFirstClose cs

/-- The call `s.match` on the pattern of lines 46 and 47 (an opening brace, `[\s\S]*`, a
closing brace): the text from the first opening brace to the last
closing brace after it (`jsonMatch[0]`), or `none` (`null`) when no closing brace follows the
first opening brace. The star is greedy and `[\s\S]` matches every character. -/
def matchBraces (s : String) : Option String :=
  match (fromFirstClose (fromFirstBrace s.data).reverse).reverse with
  | [] => none
  | span => some (String.mk span)

/-- Digits of the fraction `r / d` (with `r < d`), at most `fuel` of them. -/
def fracDigits : Nat → Nat → Nat → List Char
  | 0, _, _ => []
  | fuel + 1, r, d =>
    if r = 0 then [] else Char.ofNat (48 + r * 10 / d) :: fracDigits fuel (r * 10 % d) d

/-- The conversion `String(x)` of a number: exact decimal digits, at most twenty after the
point; the exponent form of very large and very small doubles is not represented. -/
def numToString (q : ℚ) : String :=
  let n := q.num.natAbs
  let body := Nat.repr (n / q.den) ++
    (if n % q.den = 0 then "" else "." ++ String.mk (fracDigits 20 (n % q.den) q.den))
  if q.num < 0 then "-" ++ body else body

/-- The method `parts.join(sep)` on texts. -/
def joinWith (sep : String) : List String → String
  | [] => ""
  | [x] => x
  | x :: y :: rest => x ++ sep ++ joinWith sep (y :: rest)

/-- The message of the `TypeError` that the conversion of an object to a primitive value
throws. -/
def primitiveErrorMessage : String := "Cannot convert object to primitive value"

mutual

/-- The conversion `String(v)`, as a template literal applies it, on a value that `JSON.parse`
produced; the text, or the message of the `TypeError` thrown. An object converts through its
`toString` method: without an own `toString` property that is `Object.prototype.toString`,
which gives `[object Object]`; an own `toString` property holds a JSON value, which is not
callable, and `valueOf` (own and not callable, or inherited and returning the object) gives no
primitive either, so the conversion throws. An array converts through `join`. -/
def toStr : Json → Except String String
  | Json.null => Except.ok "null"
  | Json.bool true => Except.ok "true"
  | Json.bool false => Except.ok "false"
  | Json.num q => Except.ok (numToString q)
  | Json.str s => Except.ok s
  | Json.arr items =>
    match elemStrs items with
    | Except.ok parts => Except.ok (joinWith "," parts)
    | Except.error e => Except.error e
  | Json.obj props =>
    match Json.lookup "toString" props with
    | some _ => Except.error primitiveErrorMessage
    | none => Except.ok "[object Object]"

/-- The texts of the elements of an array as `join` renders them, left to right: `null` gives
the empty text, every other element its conversion, which may throw. -/
def elemStrs : List Json → Except String (List String)
  | [] => Except.ok []
  | Json.null :: rest =>
    match elemStrs rest with
    | Except.ok parts => Except.ok ("" :: parts)
    | Except.error e => Except.error e
  | v :: rest =>
    match toStr v with
    | Except.error e => Except.error e
    | Except.ok s =>
      match elemStrs rest with
      | Except.ok parts => Except.ok (s :: parts)
      | Except.error e => Except.error e

end

/-- The method `items.join(sep)` on an array of values. -/
def join (items : List Json) (sep : String) : Except String String :=
  match elemStrs items with
  | Except.ok parts => Except.ok (joinWith sep parts)
  | Except.error e => Except.error e

end JS

/-! ## Feature services (`backend/services/pplxService.js`) -/

/-- The first argument of `generateAITextResponse`: an array of messages or a prompt. -/
inductive TextInput where
  | messages (ms : List Message) : TextInput
  | prompt (p : String) : TextInput

/-- The function `generateAITextResponse(messages, options)`. -/
def generateAITextResponse (env : Env) (input : TextInput) (options : Options) : Run String :=
  match input with
  | TextInput.messages ms => generateAIResponseWithHistory env ms options
  | TextInput.prompt p => generateAIResponse env p options

/-- The message of the `SyntaxError` that `JSON.parse` throws; the engine's wording is not
represented. -/
def syntaxErrorMessage : String := "Unexpected token in JSON"

/-- The fence handling applied to the trimmed response (lines 53-57, 99-103 and 143-147, the
same text in the three functions). -/
def stripFences (jsonText : String) : String :=
  if JS.startsWith jsonText "```json" then
    JS.removeTrailing (JS.removeLeading jsonText "```json\n") "\n```"
  else if JS.startsWith jsonText "```" then
    JS.removeTrailing (JS.removeLeading jsonText "```\n") "\n```"
  else jsonText

/-- From `response.trim()` to `return JSON.parse(jsonText)` (lines 52-59, 98-105, 142-149): the
parsed value, or the `SyntaxError` thrown by `JSON.parse`, which nothing catches. -/
def parseResponse (response : String) : Except String Json :=
  match JSON.parse (stripFences (JS.trim response)) with
  | some v => Except.ok v
  | none => Except.error syntaxErrorMessage

/-- The function `extractStructuredData(text, extractionPrompt)`; its `catch` logs and
rethrows. -/
def extractStructuredData (env : Env) (text extractionPrompt : String) : Run Json :=
  let messages : List Message := [
    { role := "system"
      content := "You are a data extraction assistant. Return only valid JSON." },
    { role := "user"
      content := extractionPrompt ++ "\n\nText to process:\n" ++ text }]
  match generateAITextResponse env (TextInput.messages messages) ⟨none, none⟩ with
  | (Except.error e, log) => (Except.error e, log)
  | (Except.ok response, log) => (parseResponse response, log)

/-- The text of the user message of `extractEssentialsFromFile` before the file name. -/
def essentialsIntro : String := "Analyze this document ("

/-- The text of the user message of `extractEssentialsFromFile` between the file name and the
document content (lines 77-91). -/
def essentialsFormat : String :=
  ") and extract key information. Return JSON in this exact format:\n\n\x7b\n  \"creativeQuestions\": [\"question1\", \"question2\"],\n  \"theoryTopics\": [\"topic1\", \"topic2\"],\n  \"numericalTopics\": [\"topic1\", \"topic2\"],\n  \"marks\": \x7b\n    \"2\": [\"short answer question 1\"],\n    \"3\": [\"medium question 1\"],\n    \"14\": [\"long question 1\"],\n    \"16\": [\"very long question 1\"]\n  \x7d\n\x7d\n\nDocument content:\n"

/-- The user message of `extractEssentialsFromFile` (lines 77-92). -/
def essentialsUserContent (fileText fileName : String) : String :=
  essentialsIntro ++ fileName ++ essentialsFormat ++ JS.substring0 fileText 10000

/-- The messages of `extractEssentialsFromFile` (lines 70-94). -/
def essentialsMessages (fileText fileName : String) : List Message := [
  { role := "system"
    content := "You are an expert at extracting educational content from documents. Return ONLY valid JSON with no markdown formatting." },
  { role := "user"
    content := essentialsUserContent fileText fileName }]

/-- The function `extractEssentialsFromFile(fileText, fileName)`. -/
def extractEssentialsFromFile (env : Env) (fileText fileName : String) : Run Json :=
  match generateAITextResponse env (TextInput.messages (essentialsMessages fileText fileName))
      ⟨some 0.1, none⟩ with
  | (Except.error e, log) => (Except.error e, log)
  | (Except.ok response, log) => (parseResponse response, log)

/-- The text of the user message of `generateRevisionPlan` before the syllabus
(lines 119-135). -/
def revisionFormat : String :=
  "Create a revision plan for this syllabus. Return JSON in this format:\n\n\x7b\n  \"weeks\": [\n    \x7b\n      \"weekNumber\": 1,\n      \"topics\": [\"topic1\", \"topic2\"],\n      \"goals\": \"Weekly goals\",\n      \"activities\": [\"activity1\", \"activity2\"],\n      \"assessments\": \"Assessment plan\"\n    \x7d\n  ],\n  \"studyTips\": [\"tip1\", \"tip2\"],\n  \"resources\": [\"resource1\", \"resource2\"]\n\x7d\n\nSyllabus: "

/-- The user message of `generateRevisionPlan` (lines 119-136); `preferencesJson` is the text
`JSON.stringify(preferences)`. -/
def revisionUserContent (syllabusText preferencesJson : String) : String :=
  revisionFormat ++ syllabusText ++ "\nPreferences: " ++ preferencesJson

/-- The messages of `generateRevisionPlan` (lines 112-138). -/
def revisionMessages (syllabusText preferencesJson : String) : List Message := [
  { role := "system"
    content := "You are an expert study planner. Create comprehensive revision plans. Return ONLY valid JSON." },
  { role := "user"
    content := revisionUserContent syllabusText preferencesJson }]

/-- The function `generateRevisionPlan(syllabusText, preferences)`, with the text of
`JSON.stringify(preferences)` for its second argument. -/
def generateRevisionPlan (env : Env) (syllabusText preferencesJson : String) : Run Json :=
  match generateAITextResponse env
      (TextInput.messages (revisionMessages syllabusText preferencesJson)) ⟨some 0.3, none⟩ with
  | (Except.error e, log) => (Except.error e, log)
  | (Except.ok response, log) => (parseResponse response, log)

/-! ## Survival plan service (`backend/services/groqSurvivalPlan.js`) -/

/-- The argument object of `generateSurvivalPlan`; `userSkills` and `examDates` are arrays. -/
structure SurvivalParams where
  userSkills : List Json
  stressLevel : Json
  timeAvailable : Json
  examDates : List Json
  goals : Json
  deadline : Json

/-- The prompt of `generateSurvivalPlan` (lines 7-21): the text, or the message of the
`TypeError` that a conversion in the template literal throws. The substitutions are evaluated
left to right. -/
def survivalPrompt (p : SurvivalParams) : Except String String := do
  let skills ← JS.join p.userSkills ", "
  let stressLevel ← JS.toStr p.stressLevel
  let timeAvailable ← JS.toStr p.timeAvailable
  let examDates ← JS.join p.examDates ", "
  let goals ← JS.toStr p.goals
  let deadline ← JS.toStr p.deadline
  pure ("Generate a weekly survival plan for a student using the following details:\nSkills: " ++
    skills ++ "\nStress Level: " ++ stressLevel ++ "\nTime Available: " ++ timeAvailable ++
    "\nExam Dates: " ++ examDates ++ "\nGoals: " ++ goals ++ "\nDeadline: " ++ deadline ++
    "\n\nProvide output in bullet points and weekly schedule format. Include:\n1. Weekly breakdown with focus areas and tasks\n2. Daily schedule with time slots\n3. Skill development roadmap\n4. Revision plan and strategies\n5. Exam preparation tactics\n6. Productivity tips")

/-- The messages of `generateSurvivalPlan` (lines 23-32) for the prompt built before. -/
def survivalMessages (prompt : String) : List Message := [
  { role := "system"
    content := "You are a study planning expert. Generate clear, structured study survival plans with weekly breakdowns, skill milestones, and exam strategies. Return ONLY a valid JSON object with this structure: \x7b\"weeklyPlan\": [\x7b\"week\": 1, \"focus\": \"...\", \"tasks\": [\"...\", \"...\"], \"milestones\": [\"...\"]\x7d], \"dailySchedule\": [\x7b\"day\": \"Monday\", \"timeSlots\": [\x7b\"time\": \"9-11 AM\", \"activity\": \"...\"\x7d]\x7d], \"skillRoadmap\": [\x7b\"skill\": \"...\", \"currentLevel\": \"...\", \"targetLevel\": \"...\", \"action\": \"...\"\x7d], \"revisionPlan\": [\x7b\"phase\": \"...\", \"duration\": \"...\", \"focus\": \"...\", \"method\": \"...\"\x7d], \"examStrategy\": [\x7b\"subject\": \"...\", \"priority\": \"...\", \"tactics\": [\"...\", \"...\"]\x7d], \"productivityRules\": [\"Rule 1\", \"Rule 2\"]\x7d" },
  { role := "user"
    content := prompt }]

/-- The body of the inner `try` of both normalising callers (`groqSurvivalPlan.js` lines 46-51,
`essentialsRoutes.js` lines 47-48): the brace span is parsed when the pattern matches, the whole
text otherwise; `none` where `JSON.parse` throws. -/
def parseBraced (text : String) : Option Json :=
  match JS.matchBraces text with
  | some span => JSON.parse span
  | none => JSON.parse text

/-- The fallback object of `generateSurvivalPlan` (lines 55-63). -/
def fallbackPlan (p : SurvivalParams) (aiResponse : String) : Json :=
  Json.obj [
    ("weeklyPlan", Json.arr [Json.obj [
      ("week", Json.num 1), ("focus", Json.str "Initial preparation"),
      ("tasks", Json.arr [Json.str "Analyze syllabus", Json.str "Create study schedule"]),
      ("milestones", Json.arr [Json.str "Setup complete"])]]),
    ("dailySchedule", Json.arr [Json.obj [
      ("day", Json.str "Monday"),
      ("timeSlots", Json.arr [Json.obj [
        ("time", Json.str "9-11 AM"), ("activity", Json.str "Study session")]])]]),
    ("skillRoadmap", Json.arr (p.userSkills.map fun skill => Json.obj [
      ("skill", skill), ("currentLevel", Json.str "Beginner"),
      ("targetLevel", Json.str "Intermediate"), ("action", Json.str "Practice daily")])),
    ("revisionPlan", Json.arr [Json.obj [
      ("phase", Json.str "Initial"), ("duration", Json.str "1 week"),
      ("focus", Json.str "Core concepts"), ("method", Json.str "Active recall")]]),
    ("examStrategy", Json.arr [Json.obj [
      ("subject", p.goals), ("priority", Json.str "High"),
      ("tactics", Json.arr [Json.str "Practice questions", Json.str "Time management"])]]),
    ("productivityRules", Json.arr [
      Json.str "Take regular breaks", Json.str "Stay hydrated", Json.str "Sleep 7-8 hours"]),
    ("rawResponse", Json.str aiResponse)]

/-- The value of `parsedPlan` after lines 43-64. -/
def parsedPlan (p : SurvivalParams) (aiResponse : String) : Json :=
  match parseBraced aiResponse with
  | some v => v
  | none => fallbackPlan p aiResponse

/-- The object `completePlan` (lines 67-74) for a non-null `parsedPlan`. -/
def completePlan (parsed : Json) : Json :=
  Json.obj [
    ("weeklyPlan", orElse (parsed.get? "weeklyPlan") Json.emptyArr),
    ("dailySchedule", orElse (parsed.get? "dailySchedule") Json.emptyArr),
    ("skillRoadmap", orElse (parsed.get? "skillRoadmap") Json.emptyArr),
    ("revisionPlan", orElse (parsed.get? "revisionPlan") Json.emptyArr),
    ("examStrategy", orElse (parsed.get? "examStrategy") Json.emptyArr),
    ("productivityRules", orElse (parsed.get? "productivityRules") Json.emptyArr)]

/-- Lines 36-76 of `generateSurvivalPlan`, inside the outer `try`: what is returned, or the
message of what is thrown, for the text the orchestrator returned. Reading a property of
`null` throws a `TypeError`. -/
def planFromResponse (p : SurvivalParams) (aiResponse : String) : Except String Json :=
  if aiResponse = "" then Except.error "Empty response from AI"
  else
    match parsedPlan p aiResponse with
    | Json.null => Except.error "Cannot read properties of null (reading 'weeklyPlan')"
    | parsed => Except.ok (completePlan parsed)

/-- The function `generateSurvivalPlan(params)`: the outer `catch` rethrows every error of the
body as a new `Error`, also the one thrown while the prompt is built, before any provider
call. -/
def generateSurvivalPlan (env : Env) (p : SurvivalParams) : Run Json :=
  match survivalPrompt p with
  | Except.error e => (Except.error ("AI generation failed: " ++ e), [])
  | Except.ok prompt =>
    match generateAIResponseWithHistory env (survivalMessages prompt)
        ⟨some 0.3, some 3000⟩ with
    | (Except.error e, log) => (Except.error ("AI generation failed: " ++ e), log)
    | (Except.ok aiResponse, log) =>
      match planFromResponse p aiResponse with
      | Except.ok plan => (Except.ok plan, log)
      | Except.error e => (Except.error ("AI generation failed: " ++ e), log)

/-! ## Route handlers (`backend/routes`) -/

/-- What a handler sends: the status code and the JSON body. -/
structure HttpResponse where
  status : Nat
  body : Json

/-- The uploaded file `req.file`; `base64File` is the text `buffer.toString('base64')`. -/
structure UploadedFile where
  originalname : String
  mimetype : String
  base64File : String

/-- The prompt of the essentials handler (line 40). -/
def essentialsPrompt (file : UploadedFile) : String :=
  "File name: " ++ file.originalname ++ "\nMIME type: " ++ file.mimetype ++ "\nBase64: " ++
  file.base64File ++
  "\n\nPlease analyze this document and return a JSON object with keys creativeTopics, theoryTopics, numericalTopics, and marksDistribution (containing arrays for twoMarks, threeMarks, fourteenMarks, sixteenMarks). Provide concise bullet points for each array. You are an academic analyzer. Extract the core essential topics from the provided syllabus/document and return them as a clean bullet list grouped by importance and mark weightage."

/-- The default object of the essentials handler (lines 50-61). -/
def defaultEssentials (aiContent : String) : Json :=
  Json.obj [
    ("summary", Json.str aiContent),
    ("creativeTopics", Json.arr []),
    ("theoryTopics", Json.arr []),
    ("numericalTopics", Json.arr []),
    ("marksDistribution", Json.obj [
      ("twoMarks", Json.arr []), ("threeMarks", Json.arr []),
      ("fourteenMarks", Json.arr []), ("sixteenMarks", Json.arr [])])]

/-- The value of `essentialsPayload` after lines 44-63; `none` is `undefined`. -/
def essentialsPayload (aiContent : String) : Option Json :=
  if aiContent = "" then none
  else
    match parseBraced aiContent with
    | some v => some v
    | none => some (defaultEssentials aiContent)

/-- The handler of `POST /extract` after the upload middleware (lines 27-80); `file` is
`req.file`. -/
def extractHandler (env : Env) (file : Option UploadedFile) : HttpResponse × List Call :=
  match file with
  | none =>
    (⟨200, Json.obj [("success", Json.bool false), ("error", Json.str "No file uploaded")]⟩, [])
  | some f =>
    match generateAIResponse env (essentialsPrompt f) ⟨some 0.2, some 2000⟩ with
    | (Except.ok aiContent, log) =>
      (⟨200, Json.obj [
        ("success", Json.bool true),
        ("essentials", orElse (essentialsPayload aiContent) Json.null),
        ("raw", if aiContent = "" then Json.null else Json.str aiContent),
        ("fileName", Json.str f.originalname)]⟩, log)
    | (Except.error message, log) =>
      (⟨200, Json.obj [
        ("success", Json.bool false),
        ("error", Json.str "Failed to extract essentials"),
        ("details", Json.str message)]⟩, log)

/-- The conversion `String(x)` of a template literal on a possibly `undefined` value. -/
def templateStr : Option Json → Except String String
  | none => Except.ok "undefined"
  | some v => JS.toStr v

/-- The prompt of the survival plan handler (lines 13-19): the text, or the message of the
`TypeError` that a conversion in the template literal throws. The substitutions are evaluated
left to right. -/
def survivalRoutePrompt (skills stressLevel timeAvailable examDates goals : Option Json) :
    Except String String := do
  let skillsText ← templateStr skills
  let stressLevelText ← templateStr stressLevel
  let timeAvailableText ← templateStr timeAvailable
  let examDatesText ← templateStr examDates
  let goalsText ← templateStr goals
  pure ("Generate a weekly survival plan for a student using the following details:\nSkills: " ++
    skillsText ++ "\nStress Level: " ++ stressLevelText ++ "\nTime Available: " ++
    timeAvailableText ++ "\nExam Dates: " ++ examDatesText ++ "\nGoals: " ++ goalsText ++
    "\nProvide output in bullet points and weekly schedule format.")

/-- The five fields that the survival plan handler reads from the body. -/
def requiredFields : List String :=
  ["skills", "stressLevel", "timeAvailable", "examDates", "goals"]

/-- Lines 7-31 of the handler of `POST /` in `survivalPlan.js` for a body that is not `null`.
The result is the response sent, or the message of the error with which the handler throws:
the prompt is built before the `try` of line 21, so an error of the template literal leaves
the handler with nothing sent and no provider called. -/
def survivalPlanFields (env : Env) (body : Json) : Except String HttpResponse × List Call :=
  let skills := body.get? "skills"
  let stressLevel := body.get? "stressLevel"
  let timeAvailable := body.get? "timeAvailable"
  let examDates := body.get? "examDates"
  let goals := body.get? "goals"
  if !truthy? skills || !truthy? stressLevel || !truthy? timeAvailable || !truthy? examDates ||
      !truthy? goals then
    (Except.ok ⟨400, Json.obj [("error", Json.str "Missing required fields")]⟩, [])
  else
    match survivalRoutePrompt skills stressLevel timeAvailable examDates goals with
    | Except.error e => (Except.error e, [])
    | Except.ok prompt =>
      match generateAIResponse env prompt ⟨some 0.3, some 2000⟩ with
      | (Except.ok plan, log) => (Except.ok ⟨200, Json.obj [("plan", Json.str plan)]⟩, log)
      | (Except.error _, log) =>
        (Except.ok ⟨500, Json.obj [("error", Json.str "AI request failed")]⟩, log)

/-- The handler of `POST /` in `survivalPlan.js` (lines 6-32); `body` is `req.body`, the value
the JSON body parser produced. The destructuring of line 7 throws on `null`. -/
def survivalPlanHandler (env : Env) (body : Json) : Except String HttpResponse × List Call :=
  match body with
  | Json.null =>
    (Except.error "Cannot destructure property 'skills' of 'req.body' as it is null.", [])
  | Json.bool b => survivalPlanFields env (Json.bool b)
  | Json.num q => survivalPlanFields env (Json.num q)
  | Json.str s => survivalPlanFields env (Json.str s)
  | Json.arr items => survivalPlanFields env (Json.arr items)
  | Json.obj props => survivalPlanFields env (Json.obj props)

/-! ## Fixtures for concrete runs -/

/-- Provider handles with no Gemini client and a Groq call that answers `reply`. -/
def groqOnly (reply : Except String String) : Env :=
  { geminiText := none, groq := fun _ => reply }

/-- A Gemini model whose two operations both answer `reply`. -/
def constGemini (reply : Except String String) : GeminiModel :=
  { generateContent := fun _ => reply, sendMessage := fun _ _ => reply }

/-- Provider handles with a Gemini client answering `primary` and a Groq call answering
`secondary`. -/
def bothProviders (primary secondary : Except String String) : Env :=
  { geminiText := some (constGemini primary), groq := fun _ => secondary }

/-- The value of the JSON text of an object with the one property `toString` holding 1. -/
def unprintable : Json := Json.obj [("toString", Json.num 1)]

/-- Survival plan parameters of a sample request. -/
def sampleParams : SurvivalParams :=
  { userSkills := [Json.str "algebra"]
    stressLevel := Json.str "high"
    timeAvailable := Json.str "2 hours"
    examDates := [Json.str "2025-01-10"]
    goals := Json.str "pass"
    deadline := Json.str "2025-01-09" }

/-! ## Helper lemmas on the orchestrator -/

theorem groqRequests_append (xs ys : List Call) :
    groqRequests (xs ++ ys) = groqRequests xs ++ groqRequests ys := by
  induction xs with
  | nil => rfl
  | cons c cs ih => cases c <;> simp [groqRequests, ih]

theorem geminiCalls_append (xs ys : List Call) :
    geminiCalls (xs ++ ys) = geminiCalls xs + geminiCalls ys := by
  induction xs with
  | nil => simp [geminiCalls]
  | cons c cs ih => cases c <;> simp [geminiCalls, ih] <;> omega

theorem groqFallback_log (env : Env) (request : GroqRequest) (log : List Call) :
    (groqFallback env request log).2 = log ++ [Call.groqCreate request] := by
  unfold groqFallback
  cases env.groq request <;> rfl

theorem groqFallback_ok (env : Env) (request : GroqRequest) (log : List Call) (text : String)
    (h : env.groq request = Except.ok text) :
    (groqFallback env request log).1 = Except.ok text := by
  unfold groqFallback
  rw [h]

theorem groqFallback_error (env : Env) (request : GroqRequest) (log : List Call)
    (message : String) (h : env.groq request = Except.error message) :
    (groqFallback env request log).1 = Except.error ("AI generation failed: " ++ message) := by
  unfold groqFallback
  rw [h]

theorem geminiGenerate_log (env : Env) (prompt : String) :
    groqRequests (geminiGenerate env prompt).2 = [] ∧ geminiCalls (geminiGenerate env prompt).2 ≤ 1 := by
  unfold geminiGenerate
  cases env.geminiText <;> simp [groqRequests, geminiCalls]

theorem geminiChat_log (env : Env) (messages : List Message) :
    groqRequests (geminiChat env messages).2 = [] ∧ geminiCalls (geminiChat env messages).2 ≤ 1 := by
  unfold geminiChat
  cases env.geminiText with
  | none => simp [groqRequests, geminiCalls]
  | some g => cases messages.getLast? <;> simp [groqRequests, geminiCalls]

theorem generateAIResponse_of_ok (env : Env) (prompt : String) (options : Options)
    (text : String) (h : (geminiGenerate env prompt).1 = Except.ok text) :
    generateAIResponse env prompt options = (Except.ok text, (geminiGenerate env prompt).2) := by
  unfold generateAIResponse
  generalize geminiGenerate env prompt = r at h ⊢
  obtain ⟨res, log⟩ := r
  simp only at h
  subst h
  rfl

theorem generateAIResponse_of_error (env : Env) (prompt : String) (options : Options)
    (e : String) (h : (geminiGenerate env prompt).1 = Except.error e) :
    generateAIResponse env prompt options =
      groqFallback env (singleRequest prompt options) (geminiGenerate env prompt).2 := by
  unfold generateAIResponse
  generalize geminiGenerate env prompt = r at h ⊢
  obtain ⟨res, log⟩ := r
  simp only at h
  subst h
  rfl

theorem generateAIResponseWithHistory_of_ok (env : Env) (messages : List Message)
    (options : Options) (text : String) (h : (geminiChat env messages).1 = Except.ok text) :
    generateAIResponseWithHistory env messages options =
      (Except.ok text, (geminiChat env messages).2) := by
  unfold generateAIResponseWithHistory
  generalize geminiChat env messages = r at h ⊢
  obtain ⟨res, log⟩ := r
  simp only at h
  subst h
  rfl

theorem generateAIResponseWithHistory_of_error (env : Env) (messages : List Message)
    (options : Options) (e : String) (h : (geminiChat env messages).1 = Except.error e) :
    generateAIResponseWithHistory env messages options =
      groqFallback env (historyRequest messages options) (geminiChat env messages).2 := by
  unfold generateAIResponseWithHistory
  generalize geminiChat env messages = r at h ⊢
  obtain ⟨res, log⟩ := r
  simp only at h
  subst h
  rfl

theorem prefixed_ne (p m : String) (hp : p ≠ "") :
    (Except.error (p ++ m) : Except String String) ≠ Except.error m := by
  intro h
  injection h with h
  have hlen := congrArg String.length h
  rw [String.length_append] at hlen
  have : p.length ≠ 0 := by
    intro h0
    apply hp
    cases p with
    | mk data =>
      simp [String.length] at h0
      simp [h0]
  omega

/-! ## The fallback orchestrator -/

theorem geminiGenerate_of_none (env : Env) (prompt : String) (h : env.geminiText = none) :
    geminiGenerate env prompt = (Except.error "Gemini not available", []) := by
  unfold geminiGenerate
  rw [h]

theorem geminiGenerate_of_some (env : Env) (g : GeminiModel) (prompt : String)
    (h : env.geminiText = some g) :
    geminiGenerate env prompt = (g.generateContent prompt, [Call.generateContent prompt]) := by
  unfold geminiGenerate
  rw [h]

theorem geminiChat_of_none (env : Env) (messages : List Message) (h : env.geminiText = none) :
    geminiChat env messages = (Except.error "Gemini not available", []) := by
  unfold geminiChat
  rw [h]

theorem geminiChat_of_nil (env : Env) (g : GeminiModel) (h : env.geminiText = some g) :
    geminiChat env [] =
      (Except.error "Cannot read properties of undefined (reading 'content')", []) := by
  unfold geminiChat
  rw [h]
  rfl

theorem geminiChat_of_last (env : Env) (g : GeminiModel) (messages : List Message)
    (last : Message) (h : env.geminiText = some g) (hlast : messages.getLast? = some last) :
    geminiChat env messages =
      (g.sendMessage (messages.map formatMessage).dropLast last.content,
        [Call.sendMessage (messages.map formatMessage).dropLast last.content]) := by
  unfold geminiChat
  rw [h]
  simp only [hlast]

theorem groqFallback_result (env : Env) (request : GroqRequest) (log : List Call) :
    (groqFallback env request log).2 = log ++ [Call.groqCreate request] ∧
    (∀ text, env.groq request = Except.ok text →
      (groqFallback env request log).1 = Except.ok text) :=
  ⟨groqFallback_log env request log, fun text h => groqFallback_ok env request log text h⟩

/-- C1: in `generateAIResponse` and `generateAIResponseWithHistory`, a Gemini attempt that
fails, because the client was never initialised, because the Gemini call itself fails or
because the last message cannot be read, is followed by exactly one Groq completion call, made
with the request built from the input, and the text of that call is the result when it
succeeds; when the Gemini call succeeds the text it returned is the result, unchanged, and the
only call of the run is that Gemini call; no run holds more than one Gemini call or more than
one Groq call. -/
theorem fallback_exactly_once (env : Env) (options : Options) :
    (∀ prompt : String,
      (env.geminiText = none →
        (generateAIResponse env prompt options).2 =
          [Call.groqCreate (singleRequest prompt options)] ∧
        ∀ text, env.groq (singleRequest prompt options) = Except.ok text →
          (generateAIResponse env prompt options).1 = Except.ok text) ∧
      (∀ (g : GeminiModel) (e : String), env.geminiText = some g →
        g.generateContent prompt = Except.error e →
        (generateAIResponse env prompt options).2 =
          [Call.generateContent prompt, Call.groqCreate (singleRequest prompt options)] ∧
        ∀ text, env.groq (singleRequest prompt options) = Except.ok text →
          (generateAIResponse env prompt options).1 = Except.ok text) ∧
      (∀ (g : GeminiModel) (text : String), env.geminiText = some g →
        g.generateContent prompt = Except.ok text →
        generateAIResponse env prompt options =
          (Except.ok text, [Call.generateContent prompt])) ∧
      geminiCalls (generateAIResponse env prompt options).2 ≤ 1 ∧
      (groqRequests (generateAIResponse env prompt options).2).length ≤ 1) ∧
    (∀ messages : List Message,
      (env.geminiText = none →
        (generateAIResponseWithHistory env messages options).2 =
          [Call.groqCreate (historyRequest messages options)] ∧
        ∀ text, env.groq (historyRequest messages options) = Except.ok text →
          (generateAIResponseWithHistory env messages options).1 = Except.ok text) ∧
      (∀ g : GeminiModel, env.geminiText = some g → messages = [] →
        (generateAIResponseWithHistory env messages options).2 =
          [Call.groqCreate (historyRequest messages options)] ∧
        ∀ text, env.groq (historyRequest messages options) = Except.ok text →
          (generateAIResponseWithHistory env messages options).1 = Except.ok text) ∧
      (∀ (g : GeminiModel) (last : Message) (e : String), env.geminiText = some g →
        messages.getLast? = some last →
        g.sendMessage (messages.map formatMessage).dropLast last.content = Except.error e →
        (generateAIResponseWithHistory env messages options).2 =
          [Call.sendMessage (messages.map formatMessage).dropLast last.content,
            Call.groqCreate (historyRequest messages options)] ∧
        ∀ text, env.groq (historyRequest messages options) = Except.ok text →
          (generateAIResponseWithHistory env messages options).1 = Except.ok text) ∧
      (∀ (g : GeminiModel) (last : Message) (text : String), env.geminiText = some g →
        messages.getLast? = some last →
        g.sendMessage (messages.map formatMessage).dropLast last.content = Except.ok text →
        generateAIResponseWithHistory env messages options =
          (Except.ok text,
            [Call.sendMessage (messages.map formatMessage).dropLast last.content])) ∧
      geminiCalls (generateAIResponseWithHistory env messages options).2 ≤ 1 ∧
      (groqRequests (generateAIResponseWithHistory env messages options).2).length ≤ 1) := by
  refine ⟨fun prompt => ?_, fun messages => ?_⟩
  · have hlog := geminiGenerate_log env prompt
    have hfail : ∀ e, (geminiGenerate env prompt).1 = Except.error e →
        (generateAIResponse env prompt options).2 =
          (geminiGenerate env prompt).2 ++ [Call.groqCreate (singleRequest prompt options)] := by
      intro e he
      rw [generateAIResponse_of_error env prompt options e he, groqFallback_log]
    refine ⟨fun hnone => ?_, fun g e hg he => ?_, fun g text hg ht => ?_, ?_, ?_⟩
    · have hgen := geminiGenerate_of_none env prompt hnone
      have hres : (geminiGenerate env prompt).1 = Except.error "Gemini not available" := by
        rw [hgen]
      rw [generateAIResponse_of_error env prompt options _ hres, hgen]
      exact groqFallback_result env _ _
    · have hgen := geminiGenerate_of_some env g prompt hg
      have hres : (geminiGenerate env prompt).1 = Except.error e := by
        rw [hgen]
        exact he
      rw [generateAIResponse_of_error env prompt options _ hres, hgen]
      exact groqFallback_result env _ _
    · have hgen := geminiGenerate_of_some env g prompt hg
      have hres : (geminiGenerate env prompt).1 = Except.ok text := by
        rw [hgen]
        exact ht
      rw [generateAIResponse_of_ok env prompt options text hres, hgen]
    · cases hres : (geminiGenerate env prompt).1 with
      | ok text =>
        rw [generateAIResponse_of_ok env prompt options text hres]
        exact hlog.2
      | error e =>
        rw [hfail e hres, geminiCalls_append]
        simpa [geminiCalls] using hlog.2
    · cases hres : (geminiGenerate env prompt).1 with
      | ok text =>
        rw [generateAIResponse_of_ok env prompt options text hres]
        simp [hlog.1]
      | error e =>
        rw [hfail e hres, groqRequests_append, hlog.1]
        simp [groqRequests]
  · have hlog := geminiChat_log env messages
    have hfail : ∀ e, (geminiChat env messages).1 = Except.error e →
        (generateAIResponseWithHistory env messages options).2 =
          (geminiChat env messages).2 ++ [Call.groqCreate (historyRequest messages options)] := by
      intro e he
      rw [generateAIResponseWithHistory_of_error env messages options e he, groqFallback_log]
    refine ⟨fun hnone => ?_, fun g hg hnil => ?_, fun g last e hg hlast he => ?_,
      fun g last text hg hlast ht => ?_, ?_, ?_⟩
    · have hgen := geminiChat_of_none env messages hnone
      have hres : (geminiChat env messages).1 = Except.error "Gemini not available" := by
        rw [hgen]
      rw [generateAIResponseWithHistory_of_error env messages options _ hres, hgen]
      exact groqFallback_result env _ _
    · subst hnil
      have hgen := geminiChat_of_nil env g hg
      have hres : (geminiChat env []).1 =
          Except.error "Cannot read properties of undefined (reading 'content')" := by
        rw [hgen]
      rw [generateAIResponseWithHistory_of_error env [] options _ hres, hgen]
      exact groqFallback_result env _ _
    · have hgen := geminiChat_of_last env g messages last hg hlast
      have hres : (geminiChat env messages).1 = Except.error e := by
        rw [hgen]
        exact he
      rw [generateAIResponseWithHistory_of_error env messages options _ hres, hgen]
      exact groqFallback_result env _ _
    · have hgen := geminiChat_of_last env g messages last hg hlast
      have hres : (geminiChat env messages).1 = Except.ok text := by
        rw [hgen]
        exact ht
      rw [generateAIResponseWithHistory_of_ok env messages options text hres, hgen]
    · cases hres : (geminiChat env messages).1 with
      | ok text =>
        rw [generateAIResponseWithHistory_of_ok env messages options text hres]
        exact hlog.2
      | error e =>
        rw [hfail e hres, geminiCalls_append]
        simpa [geminiCalls] using hlog.2
    · cases hres : (geminiChat env messages).1 with
      | ok text =>
        rw [generateAIResponseWithHistory_of_ok env messages options text hres]
        simp [hlog.1]
      | error e =>
        rw [hfail e hres, groqRequests_append, hlog.1]
        simp [groqRequests]

/-- Witness of C1: a Gemini client whose call fails with `quota exceeded` while Groq answers
`groq text`, in both functions; a Gemini client whose call answers `gemini text`, in both
functions; and no Gemini client at all. -/
theorem fallback_exactly_once_witness :
    ((generateAIResponse (bothProviders (Except.error "quota exceeded")
          (Except.ok "groq text")) "hi" ⟨none, none⟩).2 =
        [Call.generateContent "hi", Call.groqCreate (singleRequest "hi" ⟨none, none⟩)] ∧
      (generateAIResponse (bothProviders (Except.error "quota exceeded")
          (Except.ok "groq text")) "hi" ⟨none, none⟩).1 = Except.ok "groq text") ∧
    generateAIResponse (bothProviders (Except.ok "gemini text") (Except.ok "groq text")) "hi"
        ⟨none, none⟩ = (Except.ok "gemini text", [Call.generateContent "hi"]) ∧
    ((generateAIResponseWithHistory (bothProviders (Except.error "quota exceeded")
          (Except.ok "groq text")) [⟨"user", "q1"⟩, ⟨"user", "q2"⟩] ⟨none, none⟩).2 =
        [Call.sendMessage [⟨"user", [⟨"q1"⟩]⟩] "q2",
          Call.groqCreate (historyRequest [⟨"user", "q1"⟩, ⟨"user", "q2"⟩] ⟨none, none⟩)] ∧
      (generateAIResponseWithHistory (bothProviders (Except.error "quota exceeded")
          (Except.ok "groq text")) [⟨"user", "q1"⟩, ⟨"user", "q2"⟩] ⟨none, none⟩).1 =
        Except.ok "groq text") ∧
    generateAIResponseWithHistory (bothProviders (Except.ok "gemini text")
        (Except.ok "groq text")) [⟨"user", "q1"⟩, ⟨"user", "q2"⟩] ⟨none, none⟩ =
      (Except.ok "gemini text", [Call.sendMessage [⟨"user", [⟨"q1"⟩]⟩] "q2"]) ∧
    ((generateAIResponse (groqOnly (Except.ok "groq text")) "hi" ⟨none, none⟩).2 =
        [Call.groqCreate (singleRequest "hi" ⟨none, none⟩)] ∧
      (generateAIResponse (groqOnly (Except.ok "groq text")) "hi" ⟨none, none⟩).1 =
        Except.ok "groq text") :=
  have hfail := fallback_exactly_once
    (bothProviders (Except.error "quota exceeded") (Except.ok "groq text")) ⟨none, none⟩
  have hok := fallback_exactly_once
    (bothProviders (Except.ok "gemini text") (Except.ok "groq text")) ⟨none, none⟩
  have hnone := fallback_exactly_once (groqOnly (Except.ok "groq text")) ⟨none, none⟩
  ⟨⟨((hfail.1 "hi").2.1 (constGemini (Except.error "quota exceeded")) "quota exceeded"
        rfl rfl).1,
      ((hfail.1 "hi").2.1 (constGemini (Except.error "quota exceeded")) "quota exceeded"
        rfl rfl).2 "groq text" rfl⟩,
    (hok.1 "hi").2.2.1 (constGemini (Except.ok "gemini text")) "gemini text" rfl rfl,
    ⟨((hfail.2 [⟨"user", "q1"⟩, ⟨"user", "q2"⟩]).2.2.1
        (constGemini (Except.error "quota exceeded")) ⟨"user", "q2"⟩ "quota exceeded"
        rfl rfl rfl).1,
      ((hfail.2 [⟨"user", "q1"⟩, ⟨"user", "q2"⟩]).2.2.1
        (constGemini (Except.error "quota exceeded")) ⟨"user", "q2"⟩ "quota exceeded"
        rfl rfl rfl).2 "groq text" rfl⟩,
    (hok.2 [⟨"user", "q1"⟩, ⟨"user", "q2"⟩]).2.2.2.1
      (constGemini (Except.ok "gemini text")) ⟨"user", "q2"⟩ "gemini text" rfl rfl rfl,
    ⟨((hnone.1 "hi").1 rfl).1, ((hnone.1 "hi").1 rfl).2 "groq text" rfl⟩⟩

/-- C2: when both the Gemini attempt and the Groq call fail, `generateAIResponse` and
`generateAIResponseWithHistory` throw an error whose message is `AI generation failed: `
followed by the message of the Groq error, and what they throw is not the Groq error itself. -/
theorem both_fail_unified (env : Env) (options : Options) (e₁ e₂ : String) :
    (∀ prompt : String, (geminiGenerate env prompt).1 = Except.error e₁ →
      env.groq (singleRequest prompt options) = Except.error e₂ →
      (generateAIResponse env prompt options).1 =
        Except.error ("AI generation failed: " ++ e₂) ∧
      (generateAIResponse env prompt options).1 ≠ Except.error e₂) ∧
    (∀ messages : List Message, (geminiChat env messages).1 = Except.error e₁ →
      env.groq (historyRequest messages options) = Except.error e₂ →
      (generateAIResponseWithHistory env messages options).1 =
        Except.error ("AI generation failed: " ++ e₂) ∧
      (generateAIResponseWithHistory env messages options).1 ≠ Except.error e₂) := by
  constructor
  · intro prompt h₁ h₂
    have h : (generateAIResponse env prompt options).1 =
        Except.error ("AI generation failed: " ++ e₂) := by
      rw [generateAIResponse_of_error env prompt options e₁ h₁]
      exact groqFallback_error env _ _ e₂ h₂
    exact ⟨h, by rw [h]; exact prefixed_ne _ _ (by decide)⟩
  · intro messages h₁ h₂
    have h : (generateAIResponseWithHistory env messages options).1 =
        Except.error ("AI generation failed: " ++ e₂) := by
      rw [generateAIResponseWithHistory_of_error env messages options e₁ h₁]
      exact groqFallback_error env _ _ e₂ h₂
    exact ⟨h, by rw [h]; exact prefixed_ne _ _ (by decide)⟩

/-- Witness of C2: Gemini answers `quota exceeded`, Groq answers `rate limit`; the caller sees
`AI generation failed: rate limit`. -/
theorem both_fail_unified_witness :
    (generateAIResponse (bothProviders (Except.error "quota exceeded")
        (Except.error "rate limit")) "hi" ⟨none, none⟩).1 =
      Except.error "AI generation failed: rate limit" ∧
    (generateAIResponseWithHistory (bothProviders (Except.error "quota exceeded")
        (Except.error "rate limit")) [⟨"user", "hi"⟩] ⟨none, none⟩).1 =
      Except.error "AI generation failed: rate limit" :=
  have h := both_fail_unified (bothProviders (Except.error "quota exceeded")
    (Except.error "rate limit")) ⟨none, none⟩ "quota exceeded" "rate limit"
  ⟨(h.1 "hi" rfl rfl).1, (h.2 [⟨"user", "hi"⟩] rfl rfl).1⟩

/-- C3: for a non-empty list of messages and an initialised Gemini client, the translated list
has the length and order of the input (entry `i` is the translation of message `i`); a `system`
message becomes a `user` turn with text `[System]: ` followed by its content, an `assistant`
message a `model` turn and a `user` message a `user` turn, content unchanged; the one Gemini
call of `generateAIResponseWithHistory` sends the content of the last input message on a chat
whose history is the translated list without its last element. -/
theorem history_translation (env : Env) (g : GeminiModel) (messages : List Message)
    (options : Options) (hne : messages ≠ []) (hg : env.geminiText = some g) :
    (messages.map formatMessage).length = messages.length ∧
    (∀ (i : Nat) (h : i < messages.length),
      (messages.map formatMessage)[i]? = some (formatMessage (messages.get ⟨i, h⟩))) ∧
    (∀ m : Message, m.role = "system" →
      formatMessage m = ⟨"user", [⟨"[System]: " ++ m.content⟩]⟩) ∧
    (∀ m : Message, m.role = "assistant" → formatMessage m = ⟨"model", [⟨m.content⟩]⟩) ∧
    (∀ m : Message, m.role = "user" → formatMessage m = ⟨"user", [⟨m.content⟩]⟩) ∧
    geminiChat env messages =
      (g.sendMessage (messages.map formatMessage).dropLast (messages.getLast hne).content,
        [Call.sendMessage (messages.map formatMessage).dropLast
          (messages.getLast hne).content]) ∧
    (∃ rest, (generateAIResponseWithHistory env messages options).2 =
      Call.sendMessage (messages.map formatMessage).dropLast (messages.getLast hne).content ::
        rest) ∧
    geminiCalls (generateAIResponseWithHistory env messages options).2 = 1 := by
  have hchat : geminiChat env messages =
      (g.sendMessage (messages.map formatMessage).dropLast (messages.getLast hne).content,
        [Call.sendMessage (messages.map formatMessage).dropLast
          (messages.getLast hne).content]) := by
    unfold geminiChat
    rw [hg, List.getLast?_eq_getLast messages hne]
  have hrun : ∃ rest, (generateAIResponseWithHistory env messages options).2 =
      Call.sendMessage (messages.map formatMessage).dropLast (messages.getLast hne).content ::
        rest ∧ geminiCalls rest = 0 := by
    cases hres : (geminiChat env messages).1 with
    | ok text =>
      rw [generateAIResponseWithHistory_of_ok env messages options text hres, hchat]
      exact ⟨[], rfl, rfl⟩
    | error e =>
      rw [generateAIResponseWithHistory_of_error env messages options e hres, groqFallback_log,
        hchat]
      exact ⟨[Call.groqCreate (historyRequest messages options)], rfl, rfl⟩
  refine ⟨by simp, ?_, ?_, ?_, ?_, hchat, ?_, ?_⟩
  · intro i h
    simp [List.getElem?_eq_getElem h]
  · intro m hm
    simp [formatMessage, hm]
  · intro m hm
    simp [formatMessage, hm]
  · intro m hm
    simp [formatMessage, hm]
  · obtain ⟨rest, hrest, _⟩ := hrun
    exact ⟨rest, hrest⟩
  · obtain ⟨rest, hrest, hzero⟩ := hrun
    rw [hrest]
    simp [geminiCalls, hzero]

/-- Witness of C3: a system, a user, an assistant and a last user message. -/
theorem history_translation_witness :
    geminiChat (bothProviders (Except.ok "answer") (Except.ok "unused"))
        [⟨"system", "be brief"⟩, ⟨"user", "q1"⟩, ⟨"assistant", "a1"⟩, ⟨"user", "q2"⟩] =
      (Except.ok "answer",
        [Call.sendMessage
          [⟨"user", [⟨"[System]: be brief"⟩]⟩, ⟨"user", [⟨"q1"⟩]⟩, ⟨"model", [⟨"a1"⟩]⟩] "q2"]) :=
  (history_translation (bothProviders (Except.ok "answer") (Except.ok "unused"))
    (constGemini (Except.ok "answer"))
    [⟨"system", "be brief"⟩, ⟨"user", "q1"⟩, ⟨"assistant", "a1"⟩, ⟨"user", "q2"⟩]
    ⟨none, none⟩ (by decide) rfl).2.2.2.2.2.1

/-- C9, the code at the failing input: a caller who passes temperature 0 (and token cap 100)
while no Gemini client exists gets a Groq request with temperature 0.2, the default, and token
cap 100, in both orchestrator functions. -/
theorem zero_temperature_replaced :
    groqRequests (generateAIResponse (groqOnly (Except.ok "text")) "hi" ⟨some 0, some 100⟩).2 =
      [⟨"llama-3.1-70b-versatile", [⟨"user", "hi"⟩], 0.2, 100⟩] ∧
    groqRequests (generateAIResponseWithHistory (groqOnly (Except.ok "text")) [⟨"user", "hi"⟩]
        ⟨some 0, some 100⟩).2 =
      [⟨"llama-3.1-70b-versatile", [⟨"user", "hi"⟩], 0.2, 100⟩] ∧
    (0.2 : ℚ) ≠ 0 := by
  refine ⟨?_, ?_, by norm_num⟩
  · simp [generateAIResponse, geminiGenerate, groqOnly, groqFallback, groqRequests,
      singleRequest, numOr]
  · simp [generateAIResponseWithHistory, geminiChat, groqOnly, groqFallback, groqRequests,
      historyRequest, numOr]

/-! ## The survival plan handler -/

theorem survivalPlanHandler_of_ne_null (env : Env) (body : Json) (hbody : body ≠ Json.null) :
    survivalPlanHandler env body = survivalPlanFields env body := by
  cases body with
  | null => exact absurd rfl hbody
  | bool b => rfl
  | num q => rfl
  | str s => rfl
  | arr items => rfl
  | obj props => rfl

theorem survivalPlanHandler_of_falsy (env : Env) (body : Json) (hbody : body ≠ Json.null)
    (h : ∃ k ∈ requiredFields, truthy? (body.get? k) = false) :
    survivalPlanHandler env body =
      (Except.ok ⟨400, Json.obj [("error", Json.str "Missing required fields")]⟩, []) := by
  have hc : (!truthy? (body.get? "skills") || !truthy? (body.get? "stressLevel") ||
      !truthy? (body.get? "timeAvailable") || !truthy? (body.get? "examDates") ||
      !truthy? (body.get? "goals")) = true := by
    simp only [requiredFields, List.mem_cons, List.mem_singleton, List.not_mem_nil,
      or_false] at h
    obtain ⟨k, hk, hf⟩ := h
    rcases hk with hk | hk | hk | hk | hk <;> subst hk <;> simp [hf]
  rw [survivalPlanHandler_of_ne_null env body hbody]
  unfold survivalPlanFields
  simp only []
  rw [if_pos hc]

theorem survivalPlanHandler_of_truthy (env : Env) (body : Json) (hbody : body ≠ Json.null)
    (h : ∀ k ∈ requiredFields, truthy? (body.get? k) = true) :
    survivalPlanHandler env body =
      match survivalRoutePrompt (body.get? "skills") (body.get? "stressLevel")
          (body.get? "timeAvailable") (body.get? "examDates") (body.get? "goals") with
      | Except.error e => (Except.error e, [])
      | Except.ok prompt =>
        match generateAIResponse env prompt ⟨some 0.3, some 2000⟩ with
        | (Except.ok plan, log) => (Except.ok ⟨200, Json.obj [("plan", Json.str plan)]⟩, log)
        | (Except.error _, log) =>
          (Except.ok ⟨500, Json.obj [("error", Json.str "AI request failed")]⟩, log) := by
  have hc : ¬ (!truthy? (body.get? "skills") || !truthy? (body.get? "stressLevel") ||
      !truthy? (body.get? "timeAvailable") || !truthy? (body.get? "examDates") ||
      !truthy? (body.get? "goals")) = true := by
    simp [requiredFields] at h
    simp [h]
  rw [survivalPlanHandler_of_ne_null env body hbody]
  unfold survivalPlanFields
  simp only []
  rw [if_neg hc]

theorem survivalPlanHandler_not_400_of_truthy (env : Env) (body : Json)
    (hbody : body ≠ Json.null) (h : ∀ k ∈ requiredFields, truthy? (body.get? k) = true) :
    ¬ ∃ r, (survivalPlanHandler env body).1 = Except.ok r ∧ r.status = 400 := by
  rintro ⟨r, hr, hs⟩
  rw [survivalPlanHandler_of_truthy env body hbody h] at hr
  generalize survivalRoutePrompt (body.get? "skills") (body.get? "stressLevel")
      (body.get? "timeAvailable") (body.get? "examDates") (body.get? "goals") = built at hr
  cases built with
  | error e => simp at hr
  | ok prompt =>
    simp only at hr
    generalize generateAIResponse env prompt ⟨some 0.3, some 2000⟩ = run at hr
    obtain ⟨res, log⟩ := run
    cases res with
    | ok plan =>
      simp only at hr
      injection hr with hr
      subst hr
      simp at hs
    | error e =>
      simp only at hr
      injection hr with hr
      subst hr
      simp at hs

/-- The handler throws, with nothing sent and no provider called, when the five fields are
truthy and one of them does not convert to text. -/
theorem survivalPlanHandler_throws (env : Env) :
    survivalPlanHandler env (Json.obj [("skills", unprintable),
        ("stressLevel", Json.str "high"), ("timeAvailable", Json.str "2 hours"),
        ("examDates", Json.str "2025-01-10"), ("goals", Json.str "pass")]) =
      (Except.error "Cannot convert object to primitive value", []) := by
  rfl

/-- C10, counterexample: a body that carries all five fields, with an empty `goals` text (or
with `stressLevel` 0), is answered with HTTP 400 and no provider call. -/
theorem survival_handler_rejects_present_fields :
    (∀ k ∈ requiredFields, ((Json.obj [("skills", Json.str "algebra"),
        ("stressLevel", Json.str "high"), ("timeAvailable", Json.str "2 hours"),
        ("examDates", Json.str "2025-01-10"), ("goals", Json.str "")]).get? k).isSome = true) ∧
    survivalPlanHandler (groqOnly (Except.ok "plan")) (Json.obj [("skills", Json.str "algebra"),
        ("stressLevel", Json.str "high"), ("timeAvailable", Json.str "2 hours"),
        ("examDates", Json.str "2025-01-10"), ("goals", Json.str "")]) =
      (Except.ok ⟨400, Json.obj [("error", Json.str "Missing required fields")]⟩, []) ∧
    (∀ k ∈ requiredFields, ((Json.obj [("skills", Json.str "algebra"),
        ("stressLevel", Json.num 0), ("timeAvailable", Json.str "2 hours"),
        ("examDates", Json.str "2025-01-10"), ("goals", Json.str "pass")]).get? k).isSome = true) ∧
    survivalPlanHandler (groqOnly (Except.ok "plan")) (Json.obj [("skills", Json.str "algebra"),
        ("stressLevel", Json.num 0), ("timeAvailable", Json.str "2 hours"),
        ("examDates", Json.str "2025-01-10"), ("goals", Json.str "pass")]) =
      (Except.ok ⟨400, Json.obj [("error", Json.str "Missing required fields")]⟩, []) := by
  refine ⟨by decide, by rfl, by decide, ?_⟩
  simp [survivalPlanHandler, survivalPlanFields, Json.get?, Json.lookup, truthy?, Json.truthy]

/-- C10, amended: for a request body that is not `null`, the handler answers HTTP 400 exactly
when one of the five fields is missing or falsy (`null`, `false`, `0` or the empty text); it
then sends the error body and calls no provider; a body whose five fields are all truthy is
never answered with 400, and when the five fields convert to text the prompt built from them
is forwarded to `generateAIResponse`, the answer being 200 with the plan when that succeeds and
500 with an error body when that fails. -/
theorem survival_handler_status (env : Env) (body : Json) (hbody : body ≠ Json.null) :
    ((∃ r, (survivalPlanHandler env body).1 = Except.ok r ∧ r.status = 400) ↔
      ∃ k ∈ requiredFields, truthy? (body.get? k) = false) ∧
    ((∃ k ∈ requiredFields, truthy? (body.get? k) = false) →
      survivalPlanHandler env body =
        (Except.ok ⟨400, Json.obj [("error", Json.str "Missing required fields")]⟩, [])) ∧
    ((∀ k ∈ requiredFields, truthy? (body.get? k) = true) →
      ∀ prompt, survivalRoutePrompt (body.get? "skills") (body.get? "stressLevel")
          (body.get? "timeAvailable") (body.get? "examDates") (body.get? "goals") =
        Except.ok prompt →
      (survivalPlanHandler env body).2 =
        (generateAIResponse env prompt ⟨some 0.3, some 2000⟩).2 ∧
      (∀ plan, (generateAIResponse env prompt ⟨some 0.3, some 2000⟩).1 = Except.ok plan →
        (survivalPlanHandler env body).1 =
          Except.ok ⟨200, Json.obj [("plan", Json.str plan)]⟩) ∧
      (∀ e, (generateAIResponse env prompt ⟨some 0.3, some 2000⟩).1 = Except.error e →
        (survivalPlanHandler env body).1 =
          Except.ok ⟨500, Json.obj [("error", Json.str "AI request failed")]⟩)) := by
  refine ⟨⟨?_, ?_⟩, survivalPlanHandler_of_falsy env body hbody, ?_⟩
  · intro h400
    by_contra hno
    have hall : ∀ k ∈ requiredFields, truthy? (body.get? k) = true := by
      intro k hk
      by_contra hk'
      exact hno ⟨k, hk, by simpa using hk'⟩
    exact survivalPlanHandler_not_400_of_truthy env body hbody hall h400
  · intro h
    rw [survivalPlanHandler_of_falsy env body hbody h]
    exact ⟨_, rfl, rfl⟩
  · intro h prompt hprompt
    rw [survivalPlanHandler_of_truthy env body hbody h, hprompt]
    simp only []
    generalize generateAIResponse env prompt ⟨some 0.3, some 2000⟩ = run
    obtain ⟨res, log⟩ := run
    cases res with
    | ok plan =>
      refine ⟨rfl, ?_, ?_⟩
      · intro plan' hp
        simp only at hp
        injection hp with hp
        subst hp
        rfl
      · intro e he
        simp at he
    | error e =>
      refine ⟨rfl, ?_, ?_⟩
      · intro plan hp
        simp at hp
      · intro e' _
        rfl

/-- Witness of C10: a body with five truthy text fields, answered 200 with the plan of the one
provider that is called. -/
theorem survival_handler_status_witness :
    (survivalPlanHandler (groqOnly (Except.ok "the plan")) (Json.obj [
        ("skills", Json.str "algebra"), ("stressLevel", Json.str "high"),
        ("timeAvailable", Json.str "2 hours"), ("examDates", Json.str "2025-01-10"),
        ("goals", Json.str "pass")])).1 =
      Except.ok ⟨200, Json.obj [("plan", Json.str "the plan")]⟩ :=
  ((survival_handler_status (groqOnly (Except.ok "the plan")) (Json.obj [
      ("skills", Json.str "algebra"), ("stressLevel", Json.str "high"),
      ("timeAvailable", Json.str "2 hours"), ("examDates", Json.str "2025-01-10"),
      ("goals", Json.str "pass")]) (fun h => Json.noConfusion h)).2.2 (by decide) _ rfl).2.1
    "the plan" rfl

/-! ## Document text in prompts -/

theorem substring0_length (s : String) (n : Nat) :
    (JS.substring0 s n).length = min n s.length := by
  show (s.data.take n).length = min n s.data.length
  exact List.length_take n s.data

theorem substring0_of_short (s : String) (n : Nat) (h : s.length ≤ n) :
    JS.substring0 s n = s := by
  cases s with
  | mk data =>
    simp only [String.length] at h
    simp [JS.substring0, List.take_of_length_le h]

set_option maxRecDepth 100000 in
theorem essentialsFormat_length : essentialsIntro.length = 23 ∧ essentialsFormat.length = 376 :=
  ⟨by decide, by decide⟩

set_option maxRecDepth 100000 in
theorem revisionFormat_length :
    revisionFormat.length = 370 ∧ "\nPreferences: ".length = 14 :=
  ⟨by decide, by decide⟩

theorem essentialsUserContent_length (fileText fileName : String) :
    (essentialsUserContent fileText fileName).length =
      399 + fileName.length + min 10000 fileText.length := by
  have h₁ := essentialsFormat_length.1
  have h₂ := essentialsFormat_length.2
  simp only [essentialsUserContent, String.length_append, substring0_length, h₁, h₂]
  omega

theorem revisionUserContent_length (syllabusText preferencesJson : String) :
    (revisionUserContent syllabusText preferencesJson).length =
      384 + syllabusText.length + preferencesJson.length := by
  have h₁ := revisionFormat_length.1
  have h₂ := revisionFormat_length.2
  simp only [revisionUserContent, String.length_append, h₁, h₂]
  omega

/-- C8, counterexample: for a syllabus of 10,001 characters the user message of
`generateRevisionPlan` holds all 10,001 of them (its length is the constant 384 plus 10,001
plus the length of the preferences text); it is not the message built from the 10,000
character prefix. -/
theorem revision_plan_embeds_whole_syllabus :
    (String.mk (List.replicate 10001 'a')).length = 10001 ∧
    (revisionUserContent (String.mk (List.replicate 10001 'a')) "null").length =
      384 + 10001 + 4 ∧
    revisionUserContent (String.mk (List.replicate 10001 'a')) "null" ≠
      revisionFormat ++ JS.substring0 (String.mk (List.replicate 10001 'a')) 10000 ++
        "\nPreferences: " ++ "null" ∧
    (revisionMessages (String.mk (List.replicate 10001 'a')) "null").map Message.content =
      ["You are an expert study planner. Create comprehensive revision plans. Return ONLY valid JSON.",
        revisionUserContent (String.mk (List.replicate 10001 'a')) "null"] := by
  have hlen : (String.mk (List.replicate 10001 'a')).length = 10001 :=
    List.length_replicate 10001 'a'
  refine ⟨hlen, ?_, ?_, rfl⟩
  · rw [revisionUserContent_length, hlen]
    rfl
  · intro h
    have h' := congrArg String.length h
    rw [revisionUserContent_length, hlen] at h'
    have h₁ := revisionFormat_length.1
    have h₂ := revisionFormat_length.2
    simp only [String.length_append, substring0_length, hlen, h₁, h₂] at h'
    simp at h'

/-- C8, amended: in `extractEssentialsFromFile` the text embedded in the user message is the
prefix of the document of at most 10,000 characters, the whole document when it has at most
10,000 characters and its first 10,000 otherwise, so the user message has at most 10,399
characters plus the length of the file name; `generateRevisionPlan` embeds the syllabus whole,
its user message having 384 characters plus the lengths of the syllabus and of the preferences
text. -/
theorem essentials_document_truncated (fileText fileName : String) :
    (essentialsMessages fileText fileName).map Message.role = ["system", "user"] ∧
    (essentialsMessages fileText fileName).map Message.content =
      ["You are an expert at extracting educational content from documents. Return ONLY valid JSON with no markdown formatting.",
        essentialsIntro ++ fileName ++ essentialsFormat ++ JS.substring0 fileText 10000] ∧
    (JS.substring0 fileText 10000).data = fileText.data.take 10000 ∧
    (fileText.length ≤ 10000 → JS.substring0 fileText 10000 = fileText) ∧
    (10000 < fileText.length → (JS.substring0 fileText 10000).length = 10000) ∧
    (essentialsUserContent fileText fileName).length ≤ 10399 + fileName.length ∧
    (∀ syllabusText preferencesJson : String,
      (revisionMessages syllabusText preferencesJson).map Message.content =
        ["You are an expert study planner. Create comprehensive revision plans. Return ONLY valid JSON.",
          revisionFormat ++ syllabusText ++ "\nPreferences: " ++ preferencesJson] ∧
      (revisionUserContent syllabusText preferencesJson).length =
        384 + syllabusText.length + preferencesJson.length) := by
  refine ⟨rfl, rfl, rfl, substring0_of_short fileText 10000, ?_, ?_, ?_⟩
  · intro h
    rw [substring0_length]
    omega
  · rw [essentialsUserContent_length]
    omega
  · intro syllabusText preferencesJson
    exact ⟨rfl, revisionUserContent_length syllabusText preferencesJson⟩

/-! ## Code fences (`pplxService.js`) -/

theorem startsWith_append (p x : String) : JS.startsWith (p ++ x) p = true := by
  simp [JS.startsWith, String.data_append]

theorem endsWith_append (x p : String) : JS.endsWith (x ++ p) p = true := by
  simp [JS.endsWith, String.data_append]

theorem removeLeading_append (p x : String) : JS.removeLeading (p ++ x) p = x := by
  simp [JS.removeLeading, startsWith_append, String.data_append]

theorem removeTrailing_append (x p : String) : JS.removeTrailing (x ++ p) p = x := by
  simp [JS.removeTrailing, endsWith_append, String.data_append]

theorem stripFences_json (body : String) :
    stripFences ("```json\n" ++ body ++ "\n```") = body := by
  have h₁ : JS.startsWith ("```json\n" ++ body ++ "\n```") "```json" = true := by
    have : "```json\n" ++ body ++ "\n```" = "```json" ++ ("\n" ++ body ++ "\n```") := by
      simp only [← String.append_assoc]
      rfl
    rw [this]
    exact startsWith_append _ _
  unfold stripFences
  rw [if_pos h₁, String.append_assoc, removeLeading_append, removeTrailing_append]

theorem stripFences_bare (body : String) :
    stripFences ("```\n" ++ body ++ "\n```") = body := by
  have h₁ : JS.startsWith ("```\n" ++ body ++ "\n```") "```json" = false := by
    simp [JS.startsWith, String.data_append, List.isPrefixOf]
  have h₂ : JS.startsWith ("```\n" ++ body ++ "\n```") "```" = true := by
    have : "```\n" ++ body ++ "\n```" = "```" ++ ("\n" ++ body ++ "\n```") := by
      simp only [← String.append_assoc]
      rfl
    rw [this]
    exact startsWith_append _ _
  unfold stripFences
  rw [if_neg (by simp [h₁]), if_pos h₂, String.append_assoc, removeLeading_append,
    removeTrailing_append]

theorem extractEssentialsFromFile_of_ok (env : Env) (fileText fileName response : String)
    (log : List Call)
    (h : generateAITextResponse env (TextInput.messages (essentialsMessages fileText fileName))
      ⟨some 0.1, none⟩ = (Except.ok response, log)) :
    extractEssentialsFromFile env fileText fileName = (parseResponse response, log) := by
  unfold extractEssentialsFromFile
  rw [h]

theorem extractStructuredData_of_ok (env : Env) (text extractionPrompt response : String)
    (log : List Call)
    (h : generateAITextResponse env (TextInput.messages [
        ⟨"system", "You are a data extraction assistant. Return only valid JSON."⟩,
        ⟨"user", extractionPrompt ++ "\n\nText to process:\n" ++ text⟩])
      ⟨none, none⟩ = (Except.ok response, log)) :
    extractStructuredData env text extractionPrompt = (parseResponse response, log) := by
  unfold extractStructuredData
  simp only [h]

theorem generateRevisionPlan_of_ok (env : Env) (syllabusText preferencesJson response : String)
    (log : List Call)
    (h : generateAITextResponse env
      (TextInput.messages (revisionMessages syllabusText preferencesJson))
      ⟨some 0.3, none⟩ = (Except.ok response, log)) :
    generateRevisionPlan env syllabusText preferencesJson = (parseResponse response, log) := by
  unfold generateRevisionPlan
  rw [h]

/-- C7, counterexample: a response fenced with the language tag `js` keeps its opening fence
line, so `JSON.parse` throws although the text between the fences is the JSON of `a: 1`. -/
theorem fence_other_tag_not_stripped :
    JS.trim "```js\n\x7b\"a\":1\x7d\n```" = "```js\n\x7b\"a\":1\x7d\n```" ∧
    stripFences "```js\n\x7b\"a\":1\x7d\n```" = "```js\n\x7b\"a\":1\x7d" ∧
    parseResponse "```js\n\x7b\"a\":1\x7d\n```" = Except.error syntaxErrorMessage ∧
    JSON.parse "\x7b\"a\":1\x7d" = some (Json.obj [("a", Json.num 1)]) ∧
    (extractEssentialsFromFile (groqOnly (Except.ok "```js\n\x7b\"a\":1\x7d\n```")) "notes"
      "notes.pdf").1 = Except.error syntaxErrorMessage :=
  ⟨by decide, by decide, by rfl, by rfl, by rfl⟩

/-- C7, amended: when the trimmed provider text is the line of three backticks followed by
`json`, or the line of three backticks alone, then a body, then a closing line of three
backticks, the fence handling leaves exactly the body and the functions of `pplxService.js`
return the JSON parse of the body (or throw its `SyntaxError`); the text of the lines
three backticks and `json`, the JSON of `a: 1`, three backticks yields the object `a: 1`. -/
theorem fence_stripping (response body : String)
    (h : JS.trim response = "```json\n" ++ body ++ "\n```" ∨
      JS.trim response = "```\n" ++ body ++ "\n```") :
    stripFences (JS.trim response) = body ∧
    (∀ v, JSON.parse body = some v → parseResponse response = Except.ok v) ∧
    (JSON.parse body = none → parseResponse response = Except.error syntaxErrorMessage) ∧
    (∀ (env : Env) (fileText fileName : String) (log : List Call),
      generateAITextResponse env (TextInput.messages (essentialsMessages fileText fileName))
        ⟨some 0.1, none⟩ = (Except.ok response, log) →
      ∀ v, JSON.parse body = some v →
        extractEssentialsFromFile env fileText fileName = (Except.ok v, log)) ∧
    (∀ (env : Env) (syllabusText preferencesJson : String) (log : List Call),
      generateAITextResponse env
        (TextInput.messages (revisionMessages syllabusText preferencesJson))
        ⟨some 0.3, none⟩ = (Except.ok response, log) →
      ∀ v, JSON.parse body = some v →
        generateRevisionPlan env syllabusText preferencesJson = (Except.ok v, log)) ∧
    (∀ (env : Env) (docText extractionPrompt : String) (log : List Call),
      generateAITextResponse env (TextInput.messages [
          ⟨"system", "You are a data extraction assistant. Return only valid JSON."⟩,
          ⟨"user", extractionPrompt ++ "\n\nText to process:\n" ++ docText⟩])
        ⟨none, none⟩ = (Except.ok response, log) →
      ∀ v, JSON.parse body = some v →
        extractStructuredData env docText extractionPrompt = (Except.ok v, log)) ∧
    parseResponse "```json\n\x7b\"a\":1\x7d\n```" = Except.ok (Json.obj [("a", Json.num 1)]) := by
  have hs : stripFences (JS.trim response) = body := by
    rcases h with h | h
    · rw [h, stripFences_json]
    · rw [h, stripFences_bare]
  have hok : ∀ v, JSON.parse body = some v → parseResponse response = Except.ok v := by
    intro v hv
    unfold parseResponse
    rw [hs, hv]
  refine ⟨hs, hok, ?_, ?_, ?_, ?_, by rfl⟩
  · intro hn
    unfold parseResponse
    rw [hs, hn]
  · intro env fileText fileName log hrun v hv
    rw [extractEssentialsFromFile_of_ok env fileText fileName response log hrun, hok v hv]
  · intro env syllabusText preferencesJson log hrun v hv
    rw [generateRevisionPlan_of_ok env syllabusText preferencesJson response log hrun, hok v hv]
  · intro env docText extractionPrompt log hrun v hv
    rw [extractStructuredData_of_ok env docText extractionPrompt response log hrun, hok v hv]

/-- Witness of C7: the fenced text of the specification, with white space around it. -/
theorem fence_stripping_witness :
    stripFences (JS.trim "  ```json\n\x7b\"a\":1\x7d\n```\n") = "\x7b\"a\":1\x7d" ∧
    parseResponse "  ```json\n\x7b\"a\":1\x7d\n```\n" =
      Except.ok (Json.obj [("a", Json.num 1)]) :=
  have h := fence_stripping "  ```json\n\x7b\"a\":1\x7d\n```\n" "\x7b\"a\":1\x7d"
    (Or.inl (by decide))
  ⟨h.1, h.2.1 (Json.obj [("a", Json.num 1)]) (by rfl)⟩

/-! ## Brace extraction (`groqSurvivalPlan.js`, `essentialsRoutes.js`) -/

theorem fromFirstBrace_append (pre rest : List Char) (hpre : '\x7b' ∉ pre) :
    JS.fromFirstBrace (pre ++ '\x7b' :: rest) = '\x7b' :: rest := by
  induction pre with
  | nil => simp [JS.fromFirstBrace]
  | cons c cs ih =>
    have hc : c ≠ '\x7b' := fun h => hpre (by simp [h])
    have hcs : '\x7b' ∉ cs := fun h => hpre (by simp [h])
    simp [JS.fromFirstBrace, hc, ih hcs]

theorem fromFirstClose_append (pre rest : List Char) (hpre : '\x7d' ∉ pre) :
    JS.fromFirstClose (pre ++ '\x7d' :: rest) = '\x7d' :: rest := by
  induction pre with
  | nil => simp [JS.fromFirstClose]
  | cons c cs ih =>
    have hc : c ≠ '\x7d' := fun h => hpre (by simp [h])
    have hcs : '\x7d' ∉ cs := fun h => hpre (by simp [h])
    simp [JS.fromFirstClose, hc, ih hcs]

theorem fromFirstClose_eq_nil (l : List Char) :
    JS.fromFirstClose l = [] ↔ '\x7d' ∉ l := by
  induction l with
  | nil => simp [JS.fromFirstClose]
  | cons c cs ih =>
    by_cases hc : c = '\x7d'
    · simp [JS.fromFirstClose, hc]
    · have hc' : ¬ '\x7d' = c := fun h => hc h.symm
      simp [JS.fromFirstClose, hc, hc', ih]

theorem matchBraces_span (pre mid post : List Char) (hpre : '\x7b' ∉ pre)
    (hpost : '\x7d' ∉ post) :
    JS.matchBraces (String.mk (pre ++ '\x7b' :: (mid ++ '\x7d' :: post))) =
      some (String.mk ('\x7b' :: (mid ++ ['\x7d']))) := by
  have hrev : ('\x7b' :: (mid ++ '\x7d' :: post)).reverse =
      post.reverse ++ '\x7d' :: (mid.reverse ++ ['\x7b']) := by
    simp
  have hpost' : '\x7d' ∉ post.reverse := by simpa using hpost
  unfold JS.matchBraces
  simp only [fromFirstBrace_append pre _ hpre, hrev, fromFirstClose_append _ _ hpost']
  simp

theorem matchBraces_eq_none (s : String) :
    JS.matchBraces s = none ↔ '\x7d' ∉ JS.fromFirstBrace s.data := by
  unfold JS.matchBraces
  have h := fromFirstClose_eq_nil (JS.fromFirstBrace s.data).reverse
  rw [List.mem_reverse] at h
  rw [← h]
  cases hcl : JS.fromFirstClose (JS.fromFirstBrace s.data).reverse with
  | nil => simp
  | cons c cs => simp

/-- C6, counterexample: the text of an array holding the object `a: 1` parses directly, to that
array, but the handler and `generateSurvivalPlan` take the parse of the brace span, the object
`a: 1` alone. -/
theorem brace_span_taken_before_direct_parse :
    JSON.parse "[\x7b\"a\":1\x7d]" = some (Json.arr [Json.obj [("a", Json.num 1)]]) ∧
    parseBraced "[\x7b\"a\":1\x7d]" = some (Json.obj [("a", Json.num 1)]) ∧
    essentialsPayload "[\x7b\"a\":1\x7d]" = some (Json.obj [("a", Json.num 1)]) ∧
    parsedPlan sampleParams "[\x7b\"a\":1\x7d]" = Json.obj [("a", Json.num 1)] ∧
    parseBraced "[\x7b\"a\":1\x7d]" ≠ JSON.parse "[\x7b\"a\":1\x7d]" := by
  have h₁ : JSON.parse "[\x7b\"a\":1\x7d]" = some (Json.arr [Json.obj [("a", Json.num 1)]]) := by
    rfl
  have h₂ : parseBraced "[\x7b\"a\":1\x7d]" = some (Json.obj [("a", Json.num 1)]) := by rfl
  refine ⟨h₁, h₂, by rfl, by rfl, ?_⟩
  rw [h₁, h₂]
  intro h
  injection h with h
  cases h

/-- C6, amended: the result of the normaliser is the JSON parse of the text from the first
opening brace to the last closing brace after it whenever such a span exists, also when the
whole text parses directly, and the JSON parse of the whole text when there is no such span;
the text made of `Explanation: `, the JSON of the object `x: [1,2]` and ` end.` yields that
object, in the handler and in `generateSurvivalPlan`. -/
theorem brace_extraction (text : String) :
    (∀ pre mid post : List Char, '\x7b' ∉ pre → '\x7d' ∉ post →
      text.data = pre ++ '\x7b' :: (mid ++ '\x7d' :: post) →
      parseBraced text = JSON.parse (String.mk ('\x7b' :: (mid ++ ['\x7d'])))) ∧
    ('\x7d' ∉ JS.fromFirstBrace text.data → parseBraced text = JSON.parse text) ∧
    (text ≠ "" → ∀ v, parseBraced text = some v → essentialsPayload text = some v) ∧
    (∀ (p : SurvivalParams) (v : Json), parseBraced text = some v → parsedPlan p text = v) ∧
    essentialsPayload "Explanation: \x7b\"x\":[1,2]\x7d end." =
      some (Json.obj [("x", Json.arr [Json.num 1, Json.num 2])]) ∧
    parsedPlan sampleParams "Explanation: \x7b\"x\":[1,2]\x7d end." =
      Json.obj [("x", Json.arr [Json.num 1, Json.num 2])] := by
  refine ⟨?_, ?_, ?_, ?_, by rfl, by rfl⟩
  · intro pre mid post hpre hpost hdata
    have hm := matchBraces_span pre mid post hpre hpost
    rw [← hdata] at hm
    unfold parseBraced
    rw [hm]
  · intro hno
    have hm := (matchBraces_eq_none text).2 hno
    unfold parseBraced
    rw [hm]
  · intro hne v hv
    unfold essentialsPayload
    rw [if_neg hne, hv]
  · intro p v hv
    unfold parsedPlan
    rw [hv]

/-- Witness of C6: the span of the example runs from the brace after `Explanation: ` to the
brace before ` end.`. -/
theorem brace_extraction_witness :
    parseBraced "Explanation: \x7b\"x\":[1,2]\x7d end." = JSON.parse "\x7b\"x\":[1,2]\x7d" :=
  (brace_extraction "Explanation: \x7b\"x\":[1,2]\x7d end.").1 "Explanation: ".data
    "\"x\":[1,2]".data " end.".data (by decide) (by decide) (by rfl)

/-! ## Default shapes -/

theorem parseBraced_eq_none (text : String) (hdirect : JSON.parse text = none)
    (hspan : ∀ span, JS.matchBraces text = some span → JSON.parse span = none) :
    parseBraced text = none := by
  unfold parseBraced
  cases hm : JS.matchBraces text with
  | none => exact hdirect
  | some span => exact hspan span hm

theorem completePlan_keys (parsed : Json) :
    ∀ k ∈ ["weeklyPlan", "dailySchedule", "skillRoadmap", "revisionPlan", "examStrategy",
      "productivityRules"], ((completePlan parsed).get? k).isSome = true := by
  intro k hk
  simp only [List.mem_cons, List.mem_singleton, List.not_mem_nil, or_false] at hk
  rcases hk with h | h | h | h | h | h <;> subst h <;> rfl

theorem defaultEssentials_keys (aiContent : String) :
    ∀ k ∈ ["summary", "creativeTopics", "theoryTopics", "numericalTopics",
      "marksDistribution"], ((defaultEssentials aiContent).get? k).isSome = true := by
  intro k hk
  simp only [List.mem_cons, List.mem_singleton, List.not_mem_nil, or_false] at hk
  rcases hk with h | h | h | h | h <;> subst h <;> rfl

theorem planFromResponse_of_ne_null (p : SurvivalParams) (text : String) (hne : text ≠ "")
    (hnull : parsedPlan p text ≠ Json.null) :
    planFromResponse p text = Except.ok (completePlan (parsedPlan p text)) := by
  unfold planFromResponse
  rw [if_neg hne]
  cases hp : parsedPlan p text with
  | null => exact absurd hp hnull
  | bool b => rfl
  | num q => rfl
  | str s => rfl
  | arr items => rfl
  | obj props => rfl

theorem generateSurvivalPlan_of_ok (env : Env) (p : SurvivalParams) (prompt text : String)
    (log : List Call) (plan : Json) (hprompt : survivalPrompt p = Except.ok prompt)
    (hrun : generateAIResponseWithHistory env (survivalMessages prompt) ⟨some 0.3, some 3000⟩ =
      (Except.ok text, log))
    (hplan : planFromResponse p text = Except.ok plan) :
    generateSurvivalPlan env p = (Except.ok plan, log) := by
  unfold generateSurvivalPlan
  rw [hprompt]
  simp only [hrun, hplan]

/-- The function `generateSurvivalPlan` throws, with no provider called, when a parameter does
not convert to text while the prompt is built. -/
theorem generateSurvivalPlan_throws (env : Env) :
    generateSurvivalPlan env
        ⟨[Json.str "algebra"], Json.str "high", Json.str "2 hours", [Json.str "2025-01-10"],
          unprintable, Json.str "2025-01-09"⟩ =
      (Except.error "AI generation failed: Cannot convert object to primitive value", []) := by
  rfl

theorem extractHandler_of_ok (env : Env) (file : UploadedFile) (text : String)
    (log : List Call) (hne : text ≠ "")
    (hrun : generateAIResponse env (essentialsPrompt file) ⟨some 0.2, some 2000⟩ =
      (Except.ok text, log)) :
    extractHandler env (some file) =
      (⟨200, Json.obj [("success", Json.bool true),
        ("essentials", orElse (essentialsPayload text) Json.null),
        ("raw", Json.str text), ("fileName", Json.str file.originalname)]⟩, log) := by
  unfold extractHandler
  simp only [hrun, if_neg hne]

/-- C5, counterexample: for the provider text `hello world`, from which no JSON can be parsed,
`generateSurvivalPlan` returns its placeholder plan: the six arrays are not empty and the
returned object has no `rawResponse` field. -/
theorem survival_fallback_not_empty :
    JSON.parse "hello world" = none ∧ JS.matchBraces "hello world" = none ∧
    (generateSurvivalPlan (groqOnly (Except.ok "hello world")) sampleParams).1 =
      Except.ok (Json.obj [
        ("weeklyPlan", Json.arr [Json.obj [
          ("week", Json.num 1), ("focus", Json.str "Initial preparation"),
          ("tasks", Json.arr [Json.str "Analyze syllabus", Json.str "Create study schedule"]),
          ("milestones", Json.arr [Json.str "Setup complete"])]]),
        ("dailySchedule", Json.arr [Json.obj [
          ("day", Json.str "Monday"),
          ("timeSlots", Json.arr [Json.obj [
            ("time", Json.str "9-11 AM"), ("activity", Json.str "Study session")]])]]),
        ("skillRoadmap", Json.arr [Json.obj [
          ("skill", Json.str "algebra"), ("currentLevel", Json.str "Beginner"),
          ("targetLevel", Json.str "Intermediate"), ("action", Json.str "Practice daily")]]),
        ("revisionPlan", Json.arr [Json.obj [
          ("phase", Json.str "Initial"), ("duration", Json.str "1 week"),
          ("focus", Json.str "Core concepts"), ("method", Json.str "Active recall")]]),
        ("examStrategy", Json.arr [Json.obj [
          ("subject", Json.str "pass"), ("priority", Json.str "High"),
          ("tactics", Json.arr [Json.str "Practice questions", Json.str "Time management"])]]),
        ("productivityRules", Json.arr [
          Json.str "Take regular breaks", Json.str "Stay hydrated",
          Json.str "Sleep 7-8 hours"])]) :=
  ⟨by rfl, by rfl, by rfl⟩

/-- C5, amended: for every non-empty provider text from which no JSON can be parsed (neither
the whole text nor its brace span), the essentials handler yields its default object, with the
text unchanged in `summary`, the three topic arrays empty and `marksDistribution` holding four
empty arrays; `generateSurvivalPlan` (whose prompt was built, the provider having been called)
yields its placeholder plan, whose six arrays hold the fixed entries of the fallback, one
`skillRoadmap` entry for each user skill and the goals as the `examStrategy` subject. -/
theorem unparseable_defaults (text : String) (hne : text ≠ "")
    (hdirect : JSON.parse text = none)
    (hspan : ∀ span, JS.matchBraces text = some span → JSON.parse span = none) :
    essentialsPayload text = some (Json.obj [
      ("summary", Json.str text),
      ("creativeTopics", Json.arr []),
      ("theoryTopics", Json.arr []),
      ("numericalTopics", Json.arr []),
      ("marksDistribution", Json.obj [
        ("twoMarks", Json.arr []), ("threeMarks", Json.arr []),
        ("fourteenMarks", Json.arr []), ("sixteenMarks", Json.arr [])])]) ∧
    (∀ (env : Env) (file : UploadedFile) (log : List Call),
      generateAIResponse env (essentialsPrompt file) ⟨some 0.2, some 2000⟩ =
        (Except.ok text, log) →
      (extractHandler env (some file)).1.body.get? "essentials" =
        some (defaultEssentials text)) ∧
    (∀ (env : Env) (p : SurvivalParams) (prompt : String) (log : List Call),
      survivalPrompt p = Except.ok prompt →
      generateAIResponseWithHistory env (survivalMessages prompt) ⟨some 0.3, some 3000⟩ =
        (Except.ok text, log) →
      ∃ plan, generateSurvivalPlan env p = (Except.ok plan, log) ∧
        plan.get? "weeklyPlan" = some (Json.arr [Json.obj [
          ("week", Json.num 1), ("focus", Json.str "Initial preparation"),
          ("tasks", Json.arr [Json.str "Analyze syllabus", Json.str "Create study schedule"]),
          ("milestones", Json.arr [Json.str "Setup complete"])]]) ∧
        plan.get? "dailySchedule" = some (Json.arr [Json.obj [
          ("day", Json.str "Monday"),
          ("timeSlots", Json.arr [Json.obj [
            ("time", Json.str "9-11 AM"), ("activity", Json.str "Study session")]])]]) ∧
        plan.get? "skillRoadmap" = some (Json.arr (p.userSkills.map fun skill => Json.obj [
          ("skill", skill), ("currentLevel", Json.str "Beginner"),
          ("targetLevel", Json.str "Intermediate"), ("action", Json.str "Practice daily")])) ∧
        plan.get? "revisionPlan" = some (Json.arr [Json.obj [
          ("phase", Json.str "Initial"), ("duration", Json.str "1 week"),
          ("focus", Json.str "Core concepts"), ("method", Json.str "Active recall")]]) ∧
        plan.get? "examStrategy" = some (Json.arr [Json.obj [
          ("subject", p.goals), ("priority", Json.str "High"),
          ("tactics", Json.arr [Json.str "Practice questions", Json.str "Time management"])]]) ∧
        plan.get? "productivityRules" = some (Json.arr [
          Json.str "Take regular breaks", Json.str "Stay hydrated",
          Json.str "Sleep 7-8 hours"])) := by
  have hnone := parseBraced_eq_none text hdirect hspan
  have hpayload : essentialsPayload text = some (defaultEssentials text) := by
    unfold essentialsPayload
    rw [if_neg hne, hnone]
  have hparsed : ∀ p : SurvivalParams, parsedPlan p text = fallbackPlan p text := by
    intro p
    unfold parsedPlan
    rw [hnone]
  have hplan : ∀ p : SurvivalParams,
      planFromResponse p text = Except.ok (completePlan (fallbackPlan p text)) := by
    intro p
    unfold planFromResponse
    rw [if_neg hne, hparsed p]
    rfl
  refine ⟨hpayload, ?_, ?_⟩
  · intro env file log hrun
    rw [extractHandler_of_ok env file text log hne hrun, hpayload]
    rfl
  · intro env p prompt log hprompt hrun
    exact ⟨_, generateSurvivalPlan_of_ok env p prompt text log _ hprompt hrun (hplan p),
      rfl, rfl, rfl, rfl, rfl, rfl⟩

theorem matchBraces_hello : JS.matchBraces "hello world" = none := by rfl

/-- Witness of C5: the text `hello world`, in the handler and in `generateSurvivalPlan` with
Groq as the answering provider. -/
theorem unparseable_defaults_witness :
    essentialsPayload "hello world" = some (Json.obj [
      ("summary", Json.str "hello world"),
      ("creativeTopics", Json.arr []),
      ("theoryTopics", Json.arr []),
      ("numericalTopics", Json.arr []),
      ("marksDistribution", Json.obj [
        ("twoMarks", Json.arr []), ("threeMarks", Json.arr []),
        ("fourteenMarks", Json.arr []), ("sixteenMarks", Json.arr [])])]) ∧
    ∃ plan log, generateSurvivalPlan (groqOnly (Except.ok "hello world")) sampleParams =
        (Except.ok plan, log) ∧
      plan.get? "skillRoadmap" = some (Json.arr [Json.obj [
        ("skill", Json.str "algebra"), ("currentLevel", Json.str "Beginner"),
        ("targetLevel", Json.str "Intermediate"), ("action", Json.str "Practice daily")]]) ∧
      plan.get? "examStrategy" = some (Json.arr [Json.obj [
        ("subject", Json.str "pass"), ("priority", Json.str "High"),
        ("tactics", Json.arr [Json.str "Practice questions", Json.str "Time management"])]]) :=
  have h := unparseable_defaults "hello world" (by decide) (by rfl)
    (fun span hs => by
      rw [matchBraces_hello] at hs
      cases hs)
  match h.2.2 (groqOnly (Except.ok "hello world")) sampleParams _ _ rfl rfl with
  | ⟨plan, hrun, _, _, hskill, _, hexam, _⟩ => ⟨h.1, plan, _, hrun, hskill, hexam⟩

/-- C4, counterexample: when the provider answers `hello world`, `extractEssentialsFromFile`
and `generateRevisionPlan` return no object: the `SyntaxError` of `JSON.parse` reaches the
caller. -/
theorem pplx_parse_error_propagates :
    (generateAITextResponse (groqOnly (Except.ok "hello world"))
      (TextInput.messages (essentialsMessages "notes" "notes.pdf")) ⟨some 0.1, none⟩).1 =
        Except.ok "hello world" ∧
    (extractEssentialsFromFile (groqOnly (Except.ok "hello world")) "notes" "notes.pdf").1 =
      Except.error syntaxErrorMessage ∧
    (generateRevisionPlan (groqOnly (Except.ok "hello world")) "unit 1" "null").1 =
      Except.error syntaxErrorMessage :=
  ⟨by rfl, by rfl, by rfl⟩

/-- C4, amended: for every non-empty text that a provider returned, `generateSurvivalPlan`
(whose prompt was built, the provider having been called) raises no parse exception and, unless
the normalised value is `null`, returns an object in which the six keys of the plan are all
present; the essentials handler answers with `success: true` and raises nothing, its
`essentials` being the default object with the five keys `summary`, `creativeTopics`,
`theoryTopics`, `numericalTopics`, `marksDistribution` when the text cannot be parsed and the
parsed value as it is (or `null` when that is falsy) when it can; `extractEssentialsFromFile`
and `generateRevisionPlan` return the parse of the trimmed, fence-stripped text when it
succeeds and otherwise throw the `SyntaxError` of `JSON.parse`. -/
theorem shape_guarantees (text : String) (hne : text ≠ "") :
    (∀ p : SurvivalParams, planFromResponse p text ≠ Except.error syntaxErrorMessage) ∧
    (∀ p : SurvivalParams, parsedPlan p text ≠ Json.null →
      ∃ plan, planFromResponse p text = Except.ok plan ∧
        ∀ k ∈ ["weeklyPlan", "dailySchedule", "skillRoadmap", "revisionPlan",
          "examStrategy", "productivityRules"], (plan.get? k).isSome = true) ∧
    (∀ (env : Env) (p : SurvivalParams) (prompt : String) (log : List Call),
      survivalPrompt p = Except.ok prompt →
      generateAIResponseWithHistory env (survivalMessages prompt) ⟨some 0.3, some 3000⟩ =
        (Except.ok text, log) →
      parsedPlan p text ≠ Json.null →
      ∃ plan, generateSurvivalPlan env p = (Except.ok plan, log) ∧
        ∀ k ∈ ["weeklyPlan", "dailySchedule", "skillRoadmap", "revisionPlan",
          "examStrategy", "productivityRules"], (plan.get? k).isSome = true) ∧
    (∀ (env : Env) (file : UploadedFile) (log : List Call),
      generateAIResponse env (essentialsPrompt file) ⟨some 0.2, some 2000⟩ =
        (Except.ok text, log) →
      ∃ payload, extractHandler env (some file) =
          (⟨200, Json.obj [("success", Json.bool true), ("essentials", payload),
            ("raw", Json.str text), ("fileName", Json.str file.originalname)]⟩, log) ∧
        (parseBraced text = none →
          ∀ k ∈ ["summary", "creativeTopics", "theoryTopics", "numericalTopics",
            "marksDistribution"], (payload.get? k).isSome = true) ∧
        (∀ v, parseBraced text = some v → payload = if v.truthy then v else Json.null)) ∧
    (∀ (env : Env) (fileText fileName : String) (log : List Call),
      generateAITextResponse env (TextInput.messages (essentialsMessages fileText fileName))
        ⟨some 0.1, none⟩ = (Except.ok text, log) →
      (∀ v, JSON.parse (stripFences (JS.trim text)) = some v →
        extractEssentialsFromFile env fileText fileName = (Except.ok v, log)) ∧
      (JSON.parse (stripFences (JS.trim text)) = none →
        extractEssentialsFromFile env fileText fileName =
          (Except.error syntaxErrorMessage, log))) ∧
    (∀ (env : Env) (syllabusText preferencesJson : String) (log : List Call),
      generateAITextResponse env
        (TextInput.messages (revisionMessages syllabusText preferencesJson))
        ⟨some 0.3, none⟩ = (Except.ok text, log) →
      (∀ v, JSON.parse (stripFences (JS.trim text)) = some v →
        generateRevisionPlan env syllabusText preferencesJson = (Except.ok v, log)) ∧
      (JSON.parse (stripFences (JS.trim text)) = none →
        generateRevisionPlan env syllabusText preferencesJson =
          (Except.error syntaxErrorMessage, log))) := by
  have hplan : ∀ p : SurvivalParams, parsedPlan p text ≠ Json.null →
      ∃ plan, planFromResponse p text = Except.ok plan ∧
        ∀ k ∈ ["weeklyPlan", "dailySchedule", "skillRoadmap", "revisionPlan",
          "examStrategy", "productivityRules"], (plan.get? k).isSome = true := by
    intro p hnull
    exact ⟨_, planFromResponse_of_ne_null p text hne hnull, completePlan_keys _⟩
  refine ⟨?_, hplan, ?_, ?_, ?_, ?_⟩
  · intro p
    unfold planFromResponse
    rw [if_neg hne]
    cases parsedPlan p text <;> simp [syntaxErrorMessage]
  · intro env p prompt log hprompt hrun hnull
    obtain ⟨plan, hp, hk⟩ := hplan p hnull
    exact ⟨plan, generateSurvivalPlan_of_ok env p prompt text log plan hprompt hrun hp, hk⟩
  · intro env file log hrun
    refine ⟨_, extractHandler_of_ok env file text log hne hrun, ?_, ?_⟩
    · intro hnone
      have hp : orElse (essentialsPayload text) Json.null = defaultEssentials text := by
        unfold essentialsPayload
        rw [if_neg hne, hnone]
        rfl
      rw [hp]
      exact defaultEssentials_keys text
    · intro v hv
      unfold essentialsPayload
      rw [if_neg hne, hv]
      rfl
  · intro env fileText fileName log hrun
    rw [extractEssentialsFromFile_of_ok env fileText fileName text log hrun]
    unfold parseResponse
    exact ⟨fun v hv => by rw [hv], fun hn => by rw [hn]⟩
  · intro env syllabusText preferencesJson log hrun
    rw [generateRevisionPlan_of_ok env syllabusText preferencesJson text log hrun]
    unfold parseResponse
    exact ⟨fun v hv => by rw [hv], fun hn => by rw [hn]⟩

theorem parsedPlan_hello :
    parsedPlan sampleParams "hello world" ≠ Json.null := by
  have h : parsedPlan sampleParams "hello world" = fallbackPlan sampleParams "hello world" := by
    rfl
  rw [h]
  intro hnull
  cases hnull

/-- Witness of C4: the text `hello world` answered by Groq to `generateSurvivalPlan`. -/
theorem shape_guarantees_witness :
    ∃ plan log, generateSurvivalPlan (groqOnly (Except.ok "hello world")) sampleParams =
        (Except.ok plan, log) ∧
      ∀ k ∈ ["weeklyPlan", "dailySchedule", "skillRoadmap", "revisionPlan",
        "examStrategy", "productivityRules"], (plan.get? k).isSome = true :=
  match (shape_guarantees "hello world" (by decide)).2.2.1
      (groqOnly (Except.ok "hello world")) sampleParams _ _ rfl rfl parsedPlan_hello with
  | ⟨plan, hrun, hkeys⟩ => ⟨plan, _, hrun, hkeys⟩

end CollegeCompanion
